import Mathlib

/-!
A verification development for the RPC frontend of this repository
(src/node/rpc/frontend.h).  The C++ pipeline is shallowly embedded as
executable Lean functions: every external collaborator (KV store,
consensus, endpoint registry, forwarder, crypto verifier) is a field of an
environment record, every mutation of the request context, metrics and
verifier cache is explicit state passing, and the commit-retry loop is a
fuel-bounded recursion with fuel 30, matching the bounded while loop in
the source.  Observable side effects (verifier invocations, recorded
client signatures, endpoint executions, forward attempts) are logged in
an event structure so that theorems can speak about them.
-/

namespace CCF

/-- Caller identifier (`ObjectId` in the source). -/
abbrev CallerId := Nat

/-- Modelled from the spec: the distinguished CallerId denoting "not known"
(`INVALID_ID`, declared outside src/); only its distinctness matters. -/
def INVALID_ID : CallerId := 18446744073709551615

/-- Modelled from the spec: the distinguished node id returned by
`consensus->primary()` when no primary is known (`NoNode`, declared outside
src/); only its distinctness matters. -/
def NoNode : Nat := 18446744073709551615

/-- Modelled from the spec: the KV store's distinguished "no version" value
(`kv::NoVersion`, part of the external KV contract of section 6); only its
distinctness from real versions matters. -/
def kvNoVersion : Int := -9223372036854775808

inductive ConsensusType
  | CFT
  | BFT
deriving DecidableEq

/-- The view of the consensus module used by the frontend (section 6). -/
structure Consensus where
  ctype : ConsensusType
  primary_flag : Bool
  primary : Nat
  active_nodes : List Nat
  committed_seqno : Int
deriving DecidableEq

inductive ForwardingRequired
  | Never
  | Sometimes
  | Always
deriving DecidableEq

structure EndpointProperties where
  require_client_identity : Bool
  require_client_signature : Bool
  require_jwt_authentication : Bool
  execute_locally : Bool
  forwarding_required : ForwardingRequired
deriving DecidableEq

structure EndpointDefinition where
  properties : EndpointProperties
deriving DecidableEq

/-- `SignedReq`: raw request bytes, signature, digest algorithm, key id. -/
structure SignedReq where
  req : List Nat
  sig : List Nat
  md : Nat
  key_id : String
deriving DecidableEq

structure OriginalCaller where
  caller_id : CallerId
deriving DecidableEq

structure Session where
  caller_cert : List Nat
  original_caller : Option OriginalCaller
  client_session_id : Nat
  is_forwarding : Bool
deriving DecidableEq

/-- What an endpoint handler wrote into the response during one execution. -/
structure Resp where
  status : Nat
  body : String
  headers : List (String × String)
deriving DecidableEq

/-- The response part of the RPC context. `seqno`, `view` and
`global_commit` start out unset, which is modelled with `Option`. -/
structure Response where
  status : Nat
  body : String
  headers : List (String × String)
  seqno : Option Int
  view : Option Int
  global_commit : Option Int
deriving DecidableEq

structure RpcContext where
  method : String
  verb : String
  session : Session
  signed_request : Option SignedReq
  is_create_request : Bool
  execute_on_node : Bool
  request_index : Nat
  serialised_request : List Nat
  response : Response
deriving DecidableEq

/-- Replace a header (header names are unique keys in the source's header
map, so setting filters any previous value out). -/
def set_header (hs : List (String × String)) (k v : String) :
    List (String × String) :=
  hs.filter (fun p => !(p.1 == k)) ++ [(k, v)]

def RpcContext.set_response_status (ctx : RpcContext) (s : Nat) : RpcContext :=
  { ctx with response := { ctx.response with status := s } }

def RpcContext.set_response_body (ctx : RpcContext) (b : String) : RpcContext :=
  { ctx with response := { ctx.response with body := b } }

def RpcContext.set_response_header (ctx : RpcContext) (k v : String) :
    RpcContext :=
  { ctx with response :=
      { ctx.response with headers := set_header ctx.response.headers k v } }

def RpcContext.set_seqno (ctx : RpcContext) (n : Int) : RpcContext :=
  { ctx with response := { ctx.response with seqno := some n } }

def RpcContext.set_view (ctx : RpcContext) (n : Int) : RpcContext :=
  { ctx with response := { ctx.response with view := some n } }

def RpcContext.set_global_commit (ctx : RpcContext) (n : Int) : RpcContext :=
  { ctx with response := { ctx.response with global_commit := some n } }

def RpcContext.serialise_response (ctx : RpcContext) : Response :=
  ctx.response

/-- Result of `tx.commit()` plus the version data read back on success. -/
inductive CommitOutcome
  | ok (commit_version read_version commit_term : Int)
  | conflict
  | noReplicate
deriving DecidableEq

/-- Abstraction of one iteration of the retry loop: either the endpoint
execution completed (with the response it wrote, the value of
`should_apply_writes`, and the commit outcome when writes are applied), or
an exception escaped from `pre_exec` / signature recording / endpoint
execution / commit. -/
inductive AttemptOutcome
  | executed (resp : Resp) (apply_writes : Bool) (commit : CommitOutcome)
  | exCompacted
  | exRpc (status : Nat) (msg : String)
  | exJson (pointer what : String)
  | exKvSerialiser
  | exOther (msg : String)
deriving DecidableEq

structure JwtToken where
  kid : String
  header : String
  payload : String
deriving DecidableEq

inductive ServiceStatus
  | OPENING
  | OPEN
  | CLOSED
deriving DecidableEq

/-- The environment: every external collaborator the frontend calls,
plus the frontend's own configuration fields.  The per-attempt behaviour
of the KV transaction and endpoint execution is the `attempts` schedule. -/
structure Env where
  client_signatures_name : String
  request_storing_disabled : Bool
  consensus : Option Consensus
  has_forwarder : Bool
  forward_succeeds : Bool
  endpoint : Option EndpointDefinition
  allowed_verbs : List String
  caller_id_by_digest : String → CallerId
  resolve_caller : CallerId → Option (List Nat)
  get_caller_id : List Nat → CallerId
  has_certs : Bool
  lookup_forwarded_caller_ok : Bool
  vfy : List Nat → List Nat → List Nat → Nat → Bool
  nodes : Nat → Option (String × String)
  invalid_caller_msg : String
  required_signature_headers : List String
  jwt_token : Option JwtToken
  jwt_extract_error : String
  jwt_signing_key : String → Option (List Nat)
  jwt_validate : JwtToken → List Nat → Bool
  jwt_key_issuer : String → String
  service_record : Option (ServiceStatus × List Nat)
  history_present : Bool
  add_request_ok : Bool
  attempts : Nat → AttemptOutcome

/-- Per-endpoint metrics counters. -/
structure Metrics where
  calls : Nat
  errors : Nat
  failures : Nat
deriving DecidableEq

/-- The memoised verifier cache: `caller_id` to the certificate the
verifier was constructed from. -/
abbrev VCache := List (CallerId × List Nat)

/-- Observable side effects of a run. -/
structure Events where
  endpoint_lookups : Nat
  verify_calls : List (List Nat × CallerId × SignedReq)
  recorded_sigs : List (CallerId × SignedReq)
  executed : List CallerId
  forwarded : List (CallerId × List Nat)
deriving DecidableEq

structure FState where
  metrics : Metrics
  verifiers : VCache
  events : Events
  tx_count : Nat
deriving DecidableEq

inductive Outcome
  | pending
  | response (r : Response)
  | abort
deriving DecidableEq

structure PCResult where
  result : Outcome
  ctx : RpcContext
  st : FState
deriving DecidableEq

/-- `update_metrics`: increment `errors` on a 4xx status, `failures` on a
5xx status, nothing otherwise. -/
def update_metrics (status : Nat) (m : Metrics) : Metrics :=
  if status / 100 = 4 then { m with errors := m.errors + 1 }
  else if status / 100 = 5 then { m with failures := m.failures + 1 }
  else m

def squote : String := Char.toString (Char.ofNat 39)

def join_sep (sep : String) : List String → String
  | [] => ""
  | [a] => a
  | a :: rest => a ++ sep ++ join_sep sep rest

/-- `verify_client_signature`: with no client-signatures table configured
the answer is `false`; otherwise the verifier for `caller_id` is looked up
or constructed from `caller` and used to verify the signed request. -/
def verify_client_signature (env : Env) (cache : VCache) (caller : List Nat)
    (caller_id : CallerId) (sr : SignedReq) : Bool × VCache :=
  if env.client_signatures_name = "" then
    (false, cache)
  else
    let cache2 :=
      match cache.lookup caller_id with
      | some _ => cache
      | none => (caller_id, caller) :: cache
    match cache2.lookup caller_id with
    | some cert => (env.vfy cert sr.req sr.sig sr.md, cache2)
    | none => (false, cache2)

/-- `record_client_signature`: persist the signed request under
`caller_id`; with `request_storing_disabled` only the signature bytes are
kept. -/
def record_client_signature (env : Env) (caller_id : CallerId)
    (sr : SignedReq) (evs : Events) : Events :=
  if env.client_signatures_name = "" then evs
  else
    let stored :=
      if env.request_storing_disabled then
        { req := [], sig := sr.sig, md := 0, key_id := "" }
      else sr
    { evs with recorded_sigs := (caller_id, stored) :: evs.recorded_sigs }

def signature_auth_value (env : Env) : String :=
  "Signature realm=\"Signed request access\", headers=\"" ++
    join_sep " " env.required_signature_headers ++ "\""

def set_response_unauthorized (env : Env) (ctx : RpcContext) (msg : String) :
    RpcContext :=
  ((ctx.set_response_status 401).set_response_header "WWW-Authenticate"
      (signature_auth_value env)).set_response_body msg

def set_response_unauthorized_jwt (ctx : RpcContext) (msg : String) :
    RpcContext :=
  ((ctx.set_response_status 401).set_response_header "WWW-Authenticate"
      "Bearer realm=\"JWT bearer token access\", error=\"invalid_token\"").set_response_body
    msg

/-- `get_cert_to_forward`: the certificate travels with the forwarded
request only when the receiver cannot resolve it itself or the endpoint
does not require a known identity. -/
def get_cert_to_forward (env : Env) (ctx : RpcContext)
    (endpoint : Option EndpointDefinition) : List Nat :=
  if !env.has_certs ||
      (match endpoint with
       | some ep => !ep.properties.require_client_identity
       | none => false) then
    ctx.session.caller_cert
  else
    []

def fwd_fail_500 (ctx : RpcContext) (st : FState) : PCResult :=
  let ctx := (ctx.set_response_status 500).set_response_body
    "RPC could not be forwarded to unknown primary."
  { result := .response ctx.serialise_response, ctx := ctx,
    st := { st with metrics := update_metrics 500 st.metrics } }

/-- `forward_or_redirect_json`: attempt to forward to the primary when a
forwarder is configured and the request did not itself arrive forwarded;
otherwise redirect (307) to the primary read from the nodes table. -/
def forward_or_redirect_json (env : Env) (ctx : RpcContext)
    (endpoint : Option EndpointDefinition) (caller_id : CallerId)
    (st : FState) : PCResult :=
  if env.has_forwarder && ctx.session.original_caller.isNone then
    match env.consensus with
    | some c =>
      if c.primary ≠ NoNode then
        let st := { st with events :=
          { st.events with forwarded :=
              (caller_id, get_cert_to_forward env ctx endpoint) ::
                st.events.forwarded } }
        if env.forward_succeeds then
          { result := .pending, ctx := ctx, st := st }
        else
          fwd_fail_500 ctx st
      else
        fwd_fail_500 ctx st
    | none => fwd_fail_500 ctx st
  else
    let ctx := ctx.set_response_status 307
    let ctx :=
      match env.consensus with
      | some c =>
        match env.nodes c.primary with
        | some info =>
          ctx.set_response_header "Location" (info.1 ++ ":" ++ info.2)
        | none => ctx
      | none => ctx
    { result := .response ctx.serialise_response, ctx := ctx,
      st := { st with metrics :=
        update_metrics ctx.response.status st.metrics } }

/-- Endpoint lookup failure: 404 for an unknown path, 405 with an `Allow`
header when other verbs are registered on the path. -/
def lookup_fail_response (env : Env) (ctx : RpcContext) (st : FState) :
    PCResult :=
  if env.allowed_verbs.isEmpty then
    let ctx := ((ctx.set_response_status 404).set_response_header
        "Content-Type" "text/plain").set_response_body
      ("Unknown path: " ++ ctx.method)
    { result := .response ctx.serialise_response, ctx := ctx, st := st }
  else
    let allow := join_sep ", " env.allowed_verbs
    let ctx := ((ctx.set_response_status 405).set_response_header "Allow"
        allow).set_response_body
      ("Allowed methods for " ++ squote ++ ctx.method ++ squote ++ " are: " ++
        allow)
    { result := .response ctx.serialise_response, ctx := ctx, st := st }

/-- Signed-request identity override: when the signed request's key id
resolves to a valid caller id, that id replaces the session-derived one
and the session certificate is replaced by the certificate resolved from
the overriding id. -/
def caller_override (env : Env) (ctx : RpcContext) (caller_id : CallerId) :
    CallerId × RpcContext :=
  match ctx.signed_request with
  | some sr =>
    let cid := env.caller_id_by_digest sr.key_id
    if cid ≠ INVALID_ID then
      let ctx :=
        match env.resolve_caller cid with
        | some cert =>
          { ctx with session := { ctx.session with caller_cert := cert } }
        | none => ctx
      (cid, ctx)
    else (caller_id, ctx)
  | none => (caller_id, ctx)

def is_primary_now (env : Env) (ctx : RpcContext) : Bool :=
  match env.consensus with
  | none => true
  | some c => c.primary_flag || ctx.is_create_request

def is_cft_consensus (env : Env) : Bool :=
  match env.consensus with
  | some c => c.ctype == ConsensusType.CFT
  | none => false

/-- The identity-requirement gate condition (403 when it holds). -/
def identity_gate_fails (env : Env) (ep : EndpointDefinition)
    (ctx : RpcContext) (caller_id : CallerId) : Bool :=
  ep.properties.require_client_identity && env.has_certs &&
    ((ctx.session.original_caller.isSome && !env.lookup_forwarded_caller_ok) ||
      caller_id == INVALID_ID)

/-- Signature verification runs unless the request is a create-request or
was already verified by the forwarder (CFT consensus with an original
caller on the session). -/
def should_verify_signature (env : Env) (ctx : RpcContext) : Bool :=
  !ctx.is_create_request &&
    (!(is_cft_consensus env) || ctx.session.original_caller.isNone)

/-- The JWT gate: extract the bearer token, look the signing key up by
`kid`, validate the signature.  Any failure is a 401 with the Bearer
challenge. -/
def jwt_gate (env : Env) (ep : EndpointDefinition) (ctx : RpcContext)
    (should_record : Bool) (st : FState) : Sum PCResult (Bool × FState) :=
  if ep.properties.require_jwt_authentication then
    match env.jwt_token with
    | none =>
      let ctx := set_response_unauthorized_jwt ctx
        (squote ++ ctx.method ++ squote ++ " " ++ env.jwt_extract_error)
      .inl { result := .response ctx.serialise_response, ctx := ctx,
             st := { st with metrics :=
               update_metrics ctx.response.status st.metrics } }
    | some tok =>
      match env.jwt_signing_key tok.kid with
      | none =>
        let ctx := set_response_unauthorized_jwt ctx
          (squote ++ ctx.method ++ squote ++ " JWT signing key not found")
        .inl { result := .response ctx.serialise_response, ctx := ctx,
               st := { st with metrics :=
                 update_metrics ctx.response.status st.metrics } }
      | some key =>
        if !env.jwt_validate tok key then
          let ctx := set_response_unauthorized_jwt ctx
            (squote ++ ctx.method ++ squote ++ " JWT signature is invalid")
          .inl { result := .response ctx.serialise_response, ctx := ctx,
                 st := { st with metrics :=
                   update_metrics ctx.response.status st.metrics } }
        else
          .inr (should_record, st)
  else
    .inr (should_record, st)

/-- The signature-verification gate: log the verifier invocation, run the
memoised verification (which may grow the verifier cache), and either 401
on failure or continue to the JWT gate. -/
def verify_stage (env : Env) (ep : EndpointDefinition) (ctx : RpcContext)
    (caller_id : CallerId) (sr : SignedReq) (st : FState) :
    Sum PCResult (Bool × FState) :=
  let st2 : FState :=
    { st with events :=
        { st.events with verify_calls :=
            (ctx.session.caller_cert, caller_id, sr) ::
              st.events.verify_calls } }
  let st3 : FState :=
    { st2 with verifiers :=
        (verify_client_signature env st.verifiers ctx.session.caller_cert
            caller_id sr).2 }
  if (verify_client_signature env st.verifiers ctx.session.caller_cert
      caller_id sr).1 then
    jwt_gate env ep ctx (is_primary_now env ctx) st3
  else
    let ctx := set_response_unauthorized env ctx
      "Failed to verify client signature"
    .inl { result := .response ctx.serialise_response, ctx := ctx,
           st := { st3 with metrics :=
               update_metrics ctx.response.status st3.metrics } }

/-- The ordered auth gates after the identity override: identity
requirement (403), missing required signature (401), signature
verification (401), JWT (401).  On success the value carries the
should-record-client-signature flag and the threaded state. -/
def after_auth (env : Env) (ep : EndpointDefinition) (ctx : RpcContext)
    (caller_id : CallerId) (st : FState) : Sum PCResult (Bool × FState) :=
  if identity_gate_fails env ep ctx caller_id then
    let ctx := (ctx.set_response_status 403).set_response_body
      env.invalid_caller_msg
    .inl { result := .response ctx.serialise_response, ctx := ctx,
           st := { st with metrics :=
             update_metrics ctx.response.status st.metrics } }
  else if ep.properties.require_client_signature &&
      ctx.signed_request.isNone then
    let ctx := set_response_unauthorized env ctx
      (squote ++ ctx.method ++ squote ++ " RPC must be signed")
    .inl { result := .response ctx.serialise_response, ctx := ctx,
           st := { st with metrics :=
             update_metrics ctx.response.status st.metrics } }
  else
    match ctx.signed_request with
    | some sr =>
      if should_verify_signature env ctx then
        verify_stage env ep ctx caller_id sr st
      else
        jwt_gate env ep ctx (is_primary_now env ctx) st
    | none => jwt_gate env ep ctx false st

/-- The dispatch-policy condition under which a non-primary forwards or
redirects instead of executing locally. -/
def dispatch_forwarding (env : Env) (ep : EndpointDefinition)
    (ctx : RpcContext) : Bool :=
  !is_primary_now env ctx &&
    (match env.consensus with
     | some c =>
       c.ctype == ConsensusType.CFT ||
         (c.ctype != ConsensusType.CFT && !ctx.execute_on_node)
     | none => false) &&
    (match ep.properties.forwarding_required with
     | .Never => false
     | .Sometimes =>
       (ctx.session.is_forwarding && is_cft_consensus env) ||
         (!(is_cft_consensus env) && !ctx.execute_on_node &&
           !ep.properties.execute_locally)
     | .Always => true)

def set_is_forwarding (ctx : RpcContext) : RpcContext :=
  { ctx with session := { ctx.session with is_forwarding := true } }

def max_attempts : Nat := 30

/-- Events logged by one loop iteration: the conditional client-signature
record and the endpoint execution with the effective caller id. -/
def attempt_log (env : Env) (caller_id : CallerId) (should_record : Bool)
    (sr : Option SignedReq) (st : FState) : FState :=
  let evs :=
    if should_record then
      match sr with
      | some s => record_client_signature env caller_id s st.events
      | none => st.events
    else st.events
  { st with events := { evs with executed := caller_id :: evs.executed } }

/-- An attempt is silently retried exactly on a KV commit CONFLICT or a
CompactedVersionConflict exception. -/
def attempt_retryable : AttemptOutcome → Bool
  | .exCompacted => true
  | .executed _ apply_writes .conflict => apply_writes
  | _ => false

/-- Response finalisation on a committed transaction: substitute the read
version for a zero commit version, publish seqno/view when consensus is
present and the version is real, record the committed seqno. -/
def commit_ok_response (env : Env) (ctx : RpcContext)
    (cv rv term : Int) (st : FState) : PCResult :=
  let cv2 := if cv = 0 then rv else cv
  let ctx :=
    match env.consensus with
    | some c =>
      let ctx :=
        if cv2 ≠ kvNoVersion then (ctx.set_seqno cv2).set_view term else ctx
      ctx.set_global_commit c.committed_seqno
    | none => ctx
  { result := .response ctx.serialise_response, ctx := ctx,
    st := { st with metrics :=
      update_metrics ctx.response.status st.metrics } }

/-- Terminal handling of one attempt outcome (everything except the two
retryable cases; those are given harmless `pending` values here but are
intercepted by the loop before reaching this function). -/
def finish_attempt (env : Env) (ctx : RpcContext) (st : FState) :
    AttemptOutcome → PCResult
  | .executed resp apply_writes commit =>
    let ctx2 := { ctx with response :=
      { ctx.response with
          status := resp.status, body := resp.body,
          headers := resp.headers.foldl
            (fun hs kv => set_header hs kv.1 kv.2) ctx.response.headers } }
    if apply_writes then
      match commit with
      | .ok cv rv term => commit_ok_response env ctx2 cv rv term st
      | .conflict => { result := .pending, ctx := ctx2, st := st }
      | .noReplicate =>
        let ctx3 := (ctx2.set_response_status 500).set_response_body
          "Transaction failed to replicate."
        { result := .response ctx3.serialise_response, ctx := ctx3,
          st := { st with metrics :=
            update_metrics ctx3.response.status st.metrics } }
    else
      { result := .response ctx2.serialise_response, ctx := ctx2,
        st := { st with metrics :=
          update_metrics ctx2.response.status st.metrics } }
  | .exCompacted => { result := .pending, ctx := ctx, st := st }
  | .exRpc s m =>
    let ctx2 := (ctx.set_response_status s).set_response_body m
    { result := .response ctx2.serialise_response, ctx := ctx2,
      st := { st with metrics :=
        update_metrics ctx2.response.status st.metrics } }
  | .exJson p w =>
    let ctx2 := (ctx.set_response_status 400).set_response_body
      ("At " ++ p ++ ":\n\t" ++ w)
    { result := .response ctx2.serialise_response, ctx := ctx2,
      st := { st with metrics :=
        update_metrics ctx2.response.status st.metrics } }
  | .exKvSerialiser => { result := .abort, ctx := ctx, st := st }
  | .exOther m =>
    let ctx2 := (ctx.set_response_status 500).set_response_body m
    { result := .response ctx2.serialise_response, ctx := ctx2,
      st := { st with metrics :=
        update_metrics ctx2.response.status st.metrics } }

/-- The retry-exhaustion exit: 409, with no metrics update (the source
returns directly without calling `update_metrics`). -/
def exhaust_response (ctx : RpcContext) (st : FState) : PCResult :=
  let ctx := (ctx.set_response_status 409).set_response_body
    ("Transaction continued to conflict after " ++ toString max_attempts ++
      " attempts.")
  { result := .response ctx.serialise_response, ctx := ctx, st := st }

/-- The transactional executor: up to `fuel` attempts starting at attempt
index `k`; a retryable outcome resets the transaction and continues, any
other outcome is terminal for the request. -/
def exec_loop (env : Env) (ctx : RpcContext) (caller_id : CallerId)
    (should_record : Bool) (sr : Option SignedReq) :
    FState → Nat → Nat → PCResult
  | st, _, 0 => exhaust_response ctx st
  | st, k, fuel + 1 =>
    let st2 := attempt_log env caller_id should_record sr st
    if attempt_retryable (env.attempts k) then
      exec_loop env ctx caller_id should_record sr st2 (k + 1) fuel
    else
      finish_attempt env ctx st2 (env.attempts k)

def bump_lookup (st : FState) : FState :=
  { st with events :=
      { st.events with endpoint_lookups := st.events.endpoint_lookups + 1 } }

def bump_calls (st : FState) : FState :=
  { st with metrics := { st.metrics with calls := st.metrics.calls + 1 } }

/-- Dispatch after the auth gates: forward-or-redirect when the policy
says so (setting `session.is_forwarding`), otherwise run the executor. -/
def pc_dispatch (env : Env) (ep : EndpointDefinition) (ctx : RpcContext)
    (caller_id : CallerId) (should_record : Bool) (st : FState) : PCResult :=
  if dispatch_forwarding env ep ctx then
    forward_or_redirect_json env (set_is_forwarding ctx) (some ep) caller_id
      st
  else
    exec_loop env ctx caller_id should_record ctx.signed_request
      { st with tx_count := st.tx_count + 1 } 0 max_attempts

def pc_stage2 (env : Env) (ep : EndpointDefinition) (ctx : RpcContext)
    (caller_id : CallerId) (st : FState) : PCResult :=
  match after_auth env ep ctx caller_id st with
  | .inl r => r
  | .inr pr => pc_dispatch env ep ctx caller_id pr.1 pr.2

/-- `process_command`: endpoint lookup, per-endpoint `calls` metric,
identity override, auth gates, dispatch, executor. -/
def process_command (env : Env) (ctx : RpcContext) (caller_id : CallerId)
    (st : FState) : PCResult :=
  let st := bump_lookup st
  match env.endpoint with
  | none => lookup_fail_response env ctx st
  | some ep =>
    let st := bump_calls st
    let p := caller_override env ctx caller_id
    pc_stage2 env ep p.2 p.1 st

/-- Frontend lifecycle state. -/
structure Frontend where
  is_open_flag : Bool
  service_identity : Option (List Nat)
deriving DecidableEq

/-- `is_open`: once open, stays open; otherwise open exactly when the
globally-committed service record is OPEN with the bound identity. -/
def frontend_is_open (env : Env) (fe : Frontend) : Bool × Frontend :=
  if fe.is_open_flag then (true, fe)
  else
    match env.service_record with
    | some s =>
      match fe.service_identity with
      | some idc =>
        if s.1 == ServiceStatus.OPEN && s.2 == idc then
          (true, { fe with is_open_flag := true })
        else (false, fe)
      | none => (false, fe)
    | none => (false, fe)

structure ProcResult where
  result : Outcome
  ctx : RpcContext
  st : FState
  fe : Frontend
deriving DecidableEq

/-- `process`: lifecycle gate, caller id from the session certificate,
BFT-distribution decision, then `process_command`. -/
def process (env : Env) (fe : Frontend) (ctx : RpcContext) (st : FState) :
    ProcResult :=
  let op := frontend_is_open env fe
  let fe := op.2
  if !op.1 then
    let ctx := (ctx.set_response_status 404).set_response_body
      "Frontend is not open."
    { result := .response ctx.serialise_response, ctx := ctx, st := st,
      fe := fe }
  else
    let caller_id := env.get_caller_id ctx.session.caller_cert
    let st := bump_lookup st
    let is_bft :=
      match env.consensus with
      | some c => c.ctype == ConsensusType.BFT
      | none => false
    let is_local :=
      match env.endpoint with
      | some ep => ep.properties.execute_locally
      | none => false
    let should_bft_distribute := is_bft && !is_local &&
      (ctx.execute_on_node ||
        (match env.consensus with
         | some c => c.primary_flag
         | none => false))
    if should_bft_distribute then
      if env.history_present then
        if !env.add_request_ok then
          let ctx := (ctx.set_response_status 500).set_response_body
            "Could not process request."
          { result := .response ctx.serialise_response, ctx := ctx,
            st := st, fe := fe }
        else
          { result := .pending, ctx := ctx, st := st, fe := fe }
      else
        let ctx := (ctx.set_response_status 500).set_response_body
          "Consensus is not yet ready."
        { result := .response ctx.serialise_response, ctx := ctx, st := st,
          fe := fe }
    else
      let r := process_command env ctx caller_id st
      { result := r.result, ctx := r.ctx, st := r.st, fe := fe }

/-- Index of the first attempt (from `k`, within `fuel`) whose outcome is
not retryable. -/
def first_terminal_from (env : Env) : Nat → Nat → Option Nat
  | _, 0 => none
  | k, fuel + 1 =>
    if attempt_retryable (env.attempts k) then
      first_terminal_from env (k + 1) fuel
    else some k

def first_terminal (env : Env) : Option Nat :=
  first_terminal_from env 0 max_attempts

/-- Whether a `process_command` run reaches the transactional executor
(endpoint found, all auth gates passed, dispatch chose local execution). -/
def reaches_executor (env : Env) (ctx : RpcContext) (caller_id : CallerId)
    (st : FState) : Bool :=
  match env.endpoint with
  | none => false
  | some ep =>
    let p := caller_override env ctx caller_id
    match after_auth env ep p.2 p.1 (bump_calls (bump_lookup st)) with
    | .inl _ => false
    | .inr _ => !dispatch_forwarding env ep p.2

/-! ### Small projection lemmas for the context setters -/

@[simp] theorem set_status_status (ctx : RpcContext) (s : Nat) :
    (ctx.set_response_status s).response.status = s := rfl

@[simp] theorem set_status_body (ctx : RpcContext) (s : Nat) :
    (ctx.set_response_status s).response.body = ctx.response.body := rfl

@[simp] theorem set_status_headers (ctx : RpcContext) (s : Nat) :
    (ctx.set_response_status s).response.headers = ctx.response.headers := rfl

@[simp] theorem set_status_seqno (ctx : RpcContext) (s : Nat) :
    (ctx.set_response_status s).response.seqno = ctx.response.seqno := rfl

@[simp] theorem set_status_view (ctx : RpcContext) (s : Nat) :
    (ctx.set_response_status s).response.view = ctx.response.view := rfl

@[simp] theorem set_status_session (ctx : RpcContext) (s : Nat) :
    (ctx.set_response_status s).session = ctx.session := rfl

@[simp] theorem set_body_status (ctx : RpcContext) (b : String) :
    (ctx.set_response_body b).response.status = ctx.response.status := rfl

@[simp] theorem set_body_body (ctx : RpcContext) (b : String) :
    (ctx.set_response_body b).response.body = b := rfl

@[simp] theorem set_body_headers (ctx : RpcContext) (b : String) :
    (ctx.set_response_body b).response.headers = ctx.response.headers := rfl

@[simp] theorem set_body_seqno (ctx : RpcContext) (b : String) :
    (ctx.set_response_body b).response.seqno = ctx.response.seqno := rfl

@[simp] theorem set_body_view (ctx : RpcContext) (b : String) :
    (ctx.set_response_body b).response.view = ctx.response.view := rfl

@[simp] theorem set_body_session (ctx : RpcContext) (b : String) :
    (ctx.set_response_body b).session = ctx.session := rfl

@[simp] theorem set_hdr_status (ctx : RpcContext) (k v : String) :
    (ctx.set_response_header k v).response.status = ctx.response.status := rfl

@[simp] theorem set_hdr_body (ctx : RpcContext) (k v : String) :
    (ctx.set_response_header k v).response.body = ctx.response.body := rfl

@[simp] theorem set_hdr_headers (ctx : RpcContext) (k v : String) :
    (ctx.set_response_header k v).response.headers =
      set_header ctx.response.headers k v := rfl

@[simp] theorem set_hdr_session (ctx : RpcContext) (k v : String) :
    (ctx.set_response_header k v).session = ctx.session := rfl

@[simp] theorem set_seqno_seqno (ctx : RpcContext) (n : Int) :
    (ctx.set_seqno n).response.seqno = some n := rfl

@[simp] theorem set_seqno_view (ctx : RpcContext) (n : Int) :
    (ctx.set_seqno n).response.view = ctx.response.view := rfl

@[simp] theorem set_seqno_status (ctx : RpcContext) (n : Int) :
    (ctx.set_seqno n).response.status = ctx.response.status := rfl

@[simp] theorem set_seqno_session (ctx : RpcContext) (n : Int) :
    (ctx.set_seqno n).session = ctx.session := rfl

@[simp] theorem set_view_view (ctx : RpcContext) (n : Int) :
    (ctx.set_view n).response.view = some n := rfl

@[simp] theorem set_view_seqno (ctx : RpcContext) (n : Int) :
    (ctx.set_view n).response.seqno = ctx.response.seqno := rfl

@[simp] theorem set_view_status (ctx : RpcContext) (n : Int) :
    (ctx.set_view n).response.status = ctx.response.status := rfl

@[simp] theorem set_view_session (ctx : RpcContext) (n : Int) :
    (ctx.set_view n).session = ctx.session := rfl

@[simp] theorem set_gc_seqno (ctx : RpcContext) (n : Int) :
    (ctx.set_global_commit n).response.seqno = ctx.response.seqno := rfl

@[simp] theorem set_gc_view (ctx : RpcContext) (n : Int) :
    (ctx.set_global_commit n).response.view = ctx.response.view := rfl

@[simp] theorem set_gc_status (ctx : RpcContext) (n : Int) :
    (ctx.set_global_commit n).response.status = ctx.response.status := rfl

@[simp] theorem set_gc_session (ctx : RpcContext) (n : Int) :
    (ctx.set_global_commit n).session = ctx.session := rfl

@[simp] theorem serialise_response_eq (ctx : RpcContext) :
    ctx.serialise_response = ctx.response := rfl

/-! ### Metric accounting lemmas -/

theorem update_metrics_calls (s : Nat) (m : Metrics) :
    (update_metrics s m).calls = m.calls := by
  unfold update_metrics
  split
  · rfl
  · split <;> rfl

theorem update_metrics_errors (s : Nat) (m : Metrics) :
    (update_metrics s m).errors =
      m.errors + (if s / 100 = 4 then 1 else 0) := by
  unfold update_metrics
  by_cases h4 : s / 100 = 4
  · simp [h4]
  · by_cases h5 : s / 100 = 5 <;> simp [h4, h5]

theorem update_metrics_failures (s : Nat) (m : Metrics) :
    (update_metrics s m).failures =
      m.failures + (if s / 100 = 5 then 1 else 0) := by
  unfold update_metrics
  by_cases h4 : s / 100 = 4
  · have h5 : ¬ s / 100 = 5 := by omega
    simp [h4, h5]
  · by_cases h5 : s / 100 = 5 <;> simp [h4, h5]

/-! ### Preservation lemmas for the executor loop -/

theorem attempt_log_preserves (env : Env) (cid : CallerId) (rec : Bool)
    (sr : Option SignedReq) (st : FState) :
    (attempt_log env cid rec sr st).metrics = st.metrics ∧
    (attempt_log env cid rec sr st).verifiers = st.verifiers ∧
    (attempt_log env cid rec sr st).tx_count = st.tx_count ∧
    (attempt_log env cid rec sr st).events.verify_calls =
      st.events.verify_calls ∧
    (attempt_log env cid rec sr st).events.forwarded = st.events.forwarded ∧
    (attempt_log env cid rec sr st).events.endpoint_lookups =
      st.events.endpoint_lookups := by
  unfold attempt_log record_client_signature
  cases rec <;> cases sr <;> simp <;> split <;> simp

theorem attempt_log_executed_length (env : Env) (cid : CallerId) (rec : Bool)
    (sr : Option SignedReq) (st : FState) :
    (attempt_log env cid rec sr st).events.executed.length =
      st.events.executed.length + 1 := by
  unfold attempt_log record_client_signature
  cases rec <;> cases sr <;> simp <;> split <;> simp

theorem finish_attempt_events (env : Env) (ctx : RpcContext) (st : FState)
    (o : AttemptOutcome) :
    (finish_attempt env ctx st o).st.events = st.events := by
  cases o with
  | executed resp aw commit =>
    cases aw <;> cases commit <;>
      simp [finish_attempt, commit_ok_response] <;> split <;> simp
  | exCompacted => rfl
  | exRpc s m => rfl
  | exJson p w => rfl
  | exKvSerialiser => rfl
  | exOther m => rfl

theorem exhaust_response_st (ctx : RpcContext) (st : FState) :
    (exhaust_response ctx st).st = st := rfl

/-- Characterisation of the executor loop: the run reaches the first
non-retryable attempt (or exhausts the fuel), threading a state that
differs from the input only in the per-attempt event log. -/
theorem exec_loop_char (env : Env) (ctx : RpcContext) (cid : CallerId)
    (rec : Bool) (sr : Option SignedReq) :
    ∀ fuel k st, ∃ st2,
      exec_loop env ctx cid rec sr st k fuel =
        (match first_terminal_from env k fuel with
         | none => exhaust_response ctx st2
         | some j => finish_attempt env ctx st2 (env.attempts j)) ∧
      st2.metrics = st.metrics ∧ st2.verifiers = st.verifiers ∧
      st2.tx_count = st.tx_count ∧
      st2.events.verify_calls = st.events.verify_calls ∧
      st2.events.forwarded = st.events.forwarded ∧
      st2.events.endpoint_lookups = st.events.endpoint_lookups := by
  intro fuel
  induction fuel with
  | zero =>
    intro k st
    exact ⟨st, rfl, rfl, rfl, rfl, rfl, rfl, rfl⟩
  | succ n ih =>
    intro k st
    by_cases h : attempt_retryable (env.attempts k) = true
    · obtain ⟨st2, heq, hm, hv, ht, hvc, hf, hl⟩ :=
        ih (k + 1) (attempt_log env cid rec sr st)
      obtain ⟨pm, pv, pt, pvc, pf, pl⟩ := attempt_log_preserves env cid rec sr st
      refine ⟨st2, ?_, ?_, ?_, ?_, ?_, ?_, ?_⟩
      · simpa [exec_loop, first_terminal_from, h] using heq
      · rw [hm, pm]
      · rw [hv, pv]
      · rw [ht, pt]
      · rw [hvc, pvc]
      · rw [hf, pf]
      · rw [hl, pl]
    · obtain ⟨pm, pv, pt, pvc, pf, pl⟩ := attempt_log_preserves env cid rec sr st
      refine ⟨attempt_log env cid rec sr st, ?_, pm, pv, pt, pvc, pf, pl⟩
      simp [exec_loop, first_terminal_from, h]

theorem first_terminal_from_all_retry (env : Env) :
    ∀ fuel k, (∀ j, j < fuel → attempt_retryable (env.attempts (k + j)) = true) →
      first_terminal_from env k fuel = none := by
  intro fuel
  induction fuel with
  | zero => intro k _; rfl
  | succ n ih =>
    intro k h
    have h0 : attempt_retryable (env.attempts k) = true := by
      simpa using h 0 (Nat.succ_pos n)
    have hrest : ∀ j, j < n → attempt_retryable (env.attempts (k + 1 + j)) = true := by
      intro j hj
      have hkj : k + 1 + j = k + (j + 1) := by omega
      rw [hkj]
      exact h (j + 1) (by omega)
    simp [first_terminal_from, h0]
    exact ih (k + 1) hrest

theorem first_terminal_from_some (env : Env) :
    ∀ fuel k j, first_terminal_from env k fuel = some j →
      attempt_retryable (env.attempts j) = false := by
  intro fuel
  induction fuel with
  | zero => intro k j h; simp [first_terminal_from] at h
  | succ n ih =>
    intro k j h
    by_cases hr : attempt_retryable (env.attempts k) = true
    · simp [first_terminal_from, hr] at h
      exact ih (k + 1) j h
    · simp [first_terminal_from, hr] at h
      subst h
      simpa using hr

/-! ### Fixtures used by witnesses and counterexamples -/

def ep0 : EndpointDefinition :=
  { properties :=
      { require_client_identity := false, require_client_signature := false,
        require_jwt_authentication := false, execute_locally := false,
        forwarding_required := ForwardingRequired.Never } }

def resp200 : Resp := { status := 200, body := "ok", headers := [] }

def session0 : Session :=
  { caller_cert := [1, 2], original_caller := none, client_session_id := 0,
    is_forwarding := false }

def response0 : Response :=
  { status := 200, body := "", headers := [], seqno := none, view := none,
    global_commit := none }

def ctx0 : RpcContext :=
  { method := "/foo", verb := "POST", session := session0,
    signed_request := none, is_create_request := false,
    execute_on_node := false, request_index := 0, serialised_request := [],
    response := response0 }

def env0 : Env :=
  { client_signatures_name := "client_signatures",
    request_storing_disabled := false,
    consensus := none,
    has_forwarder := false,
    forward_succeeds := false,
    endpoint := some ep0,
    allowed_verbs := [],
    caller_id_by_digest := fun _ => INVALID_ID,
    resolve_caller := fun _ => none,
    get_caller_id := fun _ => 1,
    has_certs := false,
    lookup_forwarded_caller_ok := true,
    vfy := fun _ _ _ _ => true,
    nodes := fun _ => none,
    invalid_caller_msg := "Could not find matching actor certificate",
    required_signature_headers := ["(request-target)", "digest"],
    jwt_token := none,
    jwt_extract_error := "Authorization header is missing",
    jwt_signing_key := fun _ => none,
    jwt_validate := fun _ _ => false,
    jwt_key_issuer := fun _ => "",
    service_record := none,
    history_present := false,
    add_request_ok := false,
    attempts := fun _ =>
      AttemptOutcome.executed resp200 false CommitOutcome.conflict }

def metrics0 : Metrics := { calls := 0, errors := 0, failures := 0 }

def events0 : Events :=
  { endpoint_lookups := 0, verify_calls := [], recorded_sigs := [],
    executed := [], forwarded := [] }

def st0 : FState :=
  { metrics := metrics0, verifiers := [], events := events0, tx_count := 0 }

def envC1 : Env := { env0 with attempts := fun _ => AttemptOutcome.exCompacted }

/-! ### Claims -/

/-- C1: for every request that reaches the transactional executor, the
commit-retry loop performs at most 30 attempts, and if every attempt ends
in a KV CONFLICT or compacted-version conflict the request terminates with
HTTP 409 and body "Transaction continued to conflict after 30 attempts." -/
theorem C1_retry_bound_and_exhaustion (env : Env) (ctx : RpcContext)
    (caller_id : CallerId) (should_record : Bool) (sr : Option SignedReq)
    (st : FState) :
    (exec_loop env ctx caller_id should_record sr st 0
        max_attempts).st.events.executed.length ≤
      st.events.executed.length + max_attempts ∧
    ((∀ k, k < max_attempts → attempt_retryable (env.attempts k) = true) →
      ∃ r, (exec_loop env ctx caller_id should_record sr st 0
          max_attempts).result = .response r ∧
        r.status = 409 ∧
        r.body = "Transaction continued to conflict after 30 attempts.") := by
  constructor
  · have hgen : ∀ fuel k st,
        (exec_loop env ctx caller_id should_record sr st k
            fuel).st.events.executed.length ≤
          st.events.executed.length + fuel := by
      intro fuel
      induction fuel with
      | zero => intro k st; simp [exec_loop, exhaust_response]
      | succ n ih =>
        intro k st
        by_cases h : attempt_retryable (env.attempts k) = true
        · have := ih (k + 1) (attempt_log env caller_id should_record sr st)
          have hlen := attempt_log_executed_length env caller_id should_record
            sr st
          simp only [exec_loop, h, if_true]
          omega
        · have hfin := finish_attempt_events env ctx
            (attempt_log env caller_id should_record sr st) (env.attempts k)
          have hlen := attempt_log_executed_length env caller_id should_record
            sr st
          simp only [exec_loop, h, if_false, Bool.false_eq_true]
          rw [hfin]
          omega
    exact hgen max_attempts 0 st
  · intro hall
    have hnone : first_terminal_from env 0 max_attempts = none := by
      apply first_terminal_from_all_retry
      intro j hj
      simpa using hall j hj
    obtain ⟨st2, heq, _⟩ :=
      exec_loop_char env ctx caller_id should_record sr max_attempts 0 st
    rw [hnone] at heq
    refine ⟨(exhaust_response ctx st2).ctx.response, ?_, ?_, ?_⟩
    · rw [heq]; rfl
    · rfl
    · rfl

/-- Witness for C1 at a schedule where every attempt raises a
compacted-version conflict. -/
theorem C1_witness :
    (∀ k, k < max_attempts → attempt_retryable (envC1.attempts k) = true) ∧
    ∃ r, (exec_loop envC1 ctx0 1 false none st0 0 max_attempts).result =
        .response r ∧
      r.status = 409 ∧
      r.body = "Transaction continued to conflict after 30 attempts." :=
  ⟨fun _ _ => rfl,
    (C1_retry_bound_and_exhaustion envC1 ctx0 1 false none st0).2
      (fun _ _ => rfl)⟩

/-- C2: a request processed while the frontend is not open yields HTTP 404
with body "Frontend is not open." and no side effect: metrics, the
verifier cache, and the whole event log (endpoint lookups, KV writes of
client signatures, executions, forwards) are unchanged. -/
theorem C2_not_open_404 (env : Env) (fe : Frontend) (ctx : RpcContext)
    (st : FState) (h : (frontend_is_open env fe).1 = false) :
    (∃ r, (process env fe ctx st).result = .response r ∧
      r.status = 404 ∧ r.body = "Frontend is not open.") ∧
    (process env fe ctx st).st = st := by
  refine ⟨⟨((ctx.set_response_status 404).set_response_body
    "Frontend is not open.").response, ?_, rfl, rfl⟩, ?_⟩ <;>
    simp [process, h]

def feClosed : Frontend := { is_open_flag := false, service_identity := none }

/-- Witness for C2 at a closed frontend. -/
theorem C2_witness :
    (frontend_is_open env0 feClosed).1 = false ∧
    ((∃ r, (process env0 feClosed ctx0 st0).result = .response r ∧
      r.status = 404 ∧ r.body = "Frontend is not open.") ∧
    (process env0 feClosed ctx0 st0).st = st0) :=
  ⟨rfl, C2_not_open_404 env0 feClosed ctx0 st0 rfl⟩

/-- C9: only a KV serialiser failure aborts the process (the executor's
result is `abort` exactly when the first terminal attempt raised
KvSerialiserException); every other exception is terminal for the request
only: an RpcException yields its own status and message, a JsonParseError
yields 400 with the "At pointer: what" body, and any other exception
yields 500 with the exception message. -/
theorem C9_exception_classification (env : Env) (ctx : RpcContext)
    (cid : CallerId) (rec : Bool) (sr : Option SignedReq) (st : FState) :
    ((exec_loop env ctx cid rec sr st 0 max_attempts).result = .abort ↔
      ∃ k, first_terminal env = some k ∧
        env.attempts k = .exKvSerialiser) ∧
    (∀ k s m, first_terminal env = some k → env.attempts k = .exRpc s m →
      ∃ r, (exec_loop env ctx cid rec sr st 0 max_attempts).result =
          .response r ∧ r.status = s ∧ r.body = m) ∧
    (∀ k p w, first_terminal env = some k → env.attempts k = .exJson p w →
      ∃ r, (exec_loop env ctx cid rec sr st 0 max_attempts).result =
          .response r ∧ r.status = 400 ∧
        r.body = "At " ++ p ++ ":\n\t" ++ w) ∧
    (∀ k m, first_terminal env = some k → env.attempts k = .exOther m →
      ∃ r, (exec_loop env ctx cid rec sr st 0 max_attempts).result =
          .response r ∧ r.status = 500 ∧ r.body = m) := by
  obtain ⟨st2, heq, _⟩ := exec_loop_char env ctx cid rec sr max_attempts 0 st
  refine ⟨?_, ?_, ?_, ?_⟩
  · constructor
    · intro habort
      cases hft : first_terminal_from env 0 max_attempts with
      | none =>
        rw [hft] at heq
        have heq2 : exec_loop env ctx cid rec sr st 0 max_attempts =
            exhaust_response ctx st2 := heq
        rw [heq2] at habort
        simp [exhaust_response] at habort
      | some j =>
        rw [hft] at heq
        have heq2 : exec_loop env ctx cid rec sr st 0 max_attempts =
            finish_attempt env ctx st2 (env.attempts j) := heq
        rw [heq2] at habort
        refine ⟨j, hft, ?_⟩
        cases ho : env.attempts j with
        | executed resp aw commit =>
          rw [ho] at habort
          cases aw <;> cases commit <;>
            simp [finish_attempt, commit_ok_response] at habort
        | exCompacted => rw [ho] at habort; simp [finish_attempt] at habort
        | exRpc s m => rw [ho] at habort; simp [finish_attempt] at habort
        | exJson p w => rw [ho] at habort; simp [finish_attempt] at habort
        | exKvSerialiser => rfl
        | exOther m => rw [ho] at habort; simp [finish_attempt] at habort
    · rintro ⟨k, hft, ho⟩
      have hft' : first_terminal_from env 0 max_attempts = some k := hft
      rw [hft'] at heq
      have heq2 : exec_loop env ctx cid rec sr st 0 max_attempts =
          finish_attempt env ctx st2 (env.attempts k) := heq
      rw [heq2, ho]
      rfl
  · intro k s m hft ho
    have hft' : first_terminal_from env 0 max_attempts = some k := hft
    rw [hft'] at heq
    have heq2 : exec_loop env ctx cid rec sr st 0 max_attempts =
        finish_attempt env ctx st2 (env.attempts k) := heq
    rw [heq2, ho]
    exact ⟨_, rfl, rfl, rfl⟩
  · intro k p w hft ho
    have hft' : first_terminal_from env 0 max_attempts = some k := hft
    rw [hft'] at heq
    have heq2 : exec_loop env ctx cid rec sr st 0 max_attempts =
        finish_attempt env ctx st2 (env.attempts k) := heq
    rw [heq2, ho]
    exact ⟨_, rfl, rfl, rfl⟩
  · intro k m hft ho
    have hft' : first_terminal_from env 0 max_attempts = some k := hft
    rw [hft'] at heq
    have heq2 : exec_loop env ctx cid rec sr st 0 max_attempts =
        finish_attempt env ctx st2 (env.attempts k) := heq
    rw [heq2, ho]
    exact ⟨_, rfl, rfl, rfl⟩

def envC9 : Env :=
  { env0 with attempts := fun _ => AttemptOutcome.exRpc 418 "teapot" }

/-- Witness for C9 at a schedule whose first attempt raises an
RpcException with status 418. -/
theorem C9_witness :
    first_terminal envC9 = some 0 ∧
    envC9.attempts 0 = AttemptOutcome.exRpc 418 "teapot" ∧
    ∃ r, (exec_loop envC9 ctx0 1 false none st0 0 max_attempts).result =
        .response r ∧ r.status = 418 ∧ r.body = "teapot" :=
  ⟨rfl, rfl,
    (C9_exception_classification envC9 ctx0 1 false none st0).2.1 0 418
      "teapot" rfl rfl⟩

/-- C10: the verifier cache is keyed by caller id and memoised: on a cache
hit the certificate argument is ignored and the cache is unchanged (so any
two certificates presented for the same caller id give identical results),
a miss inserts a verifier built from the presented certificate, and
entries are never evicted. -/
theorem C10_verifier_cache (env : Env) (cache : VCache)
    (cert1 cert2 : List Nat) (cid : CallerId) (sr : SignedReq) :
    (∀ v, cache.lookup cid = some v →
      verify_client_signature env cache cert1 cid sr =
        verify_client_signature env cache cert2 cid sr ∧
      (verify_client_signature env cache cert1 cid sr).2 = cache ∧
      (env.client_signatures_name ≠ "" →
        (verify_client_signature env cache cert1 cid sr).1 =
          env.vfy v sr.req sr.sig sr.md)) ∧
    (cache.lookup cid = none → env.client_signatures_name ≠ "" →
      verify_client_signature env cache cert1 cid sr =
        (env.vfy cert1 sr.req sr.sig sr.md, (cid, cert1) :: cache)) ∧
    (∀ cid2 v2, cache.lookup cid2 = some v2 →
      ((verify_client_signature env cache cert1 cid sr).2).lookup cid2 =
        some v2) := by
  by_cases hname : env.client_signatures_name = ""
  · refine ⟨fun v hv => ⟨?_, ?_, fun hne => absurd hname hne⟩, ?_, ?_⟩
    · simp [verify_client_signature, hname]
    · simp [verify_client_signature, hname]
    · intro hmiss hne; exact absurd hname hne
    · intro cid2 v2 h2; simp [verify_client_signature, hname]; exact h2
  · refine ⟨fun v hv => ?_, fun hmiss _ => ?_, fun cid2 v2 h2 => ?_⟩
    · refine ⟨?_, ?_, fun _ => ?_⟩ <;>
        simp [verify_client_signature, hname, hv]
    · have hhead : ((cid, cert1) :: cache).lookup cid = some cert1 := by
        simp [List.lookup]
      simp [verify_client_signature, hname, hmiss, hhead]
    · cases hc : cache.lookup cid with
      | some v =>
        simp [verify_client_signature, hname, hc]
        exact h2
      | none =>
        have hne2 : (cid2 == cid) = false := by
          by_cases he : cid2 = cid
          · subst he; rw [hc] at h2; exact absurd h2 (by simp)
          · simp [he]
        have hhead : ((cid, cert1) :: cache).lookup cid = some cert1 := by
          simp [List.lookup]
        simp [verify_client_signature, hname, hc, hhead, List.lookup, hne2]
        exact h2

def srW : SignedReq := { req := [0], sig := [9], md := 1, key_id := "kid" }

/-- Witness for C10 at a cache holding an entry for caller id 5. -/
theorem C10_witness :
    ([(5, [1])] : VCache).lookup 5 = some [1] ∧
    verify_client_signature env0 [(5, [1])] [2] 5 srW =
      verify_client_signature env0 [(5, [1])] [3] 5 srW ∧
    (verify_client_signature env0 [(5, [1])] [2] 5 srW).2 = [(5, [1])] :=
  ⟨rfl,
    ((C10_verifier_cache env0 [(5, [1])] [2] [3] 5 srW).1 [1] rfl).1,
    ((C10_verifier_cache env0 [(5, [1])] [2] [3] 5 srW).1 [1] rfl).2.1⟩

/-! ### Header lookup lemmas -/

theorem lookup_set_header (hs : List (String × String)) (k v : String) :
    (set_header hs k v).lookup k = some v := by
  unfold set_header
  induction hs with
  | nil => simp [List.lookup]
  | cons a t ih =>
    by_cases he : a.1 = k
    · simpa [List.filter_cons, he] using ih
    · have hke : (k == a.1) = false := by
        have h2 : ¬ k = a.1 := fun hk => he hk.symm
        simp [h2]
      simpa [List.filter_cons, he, List.lookup, hke] using ih

/-! ### C7: forward-or-redirect -/

/-- C7 (amended): when the dispatch decision is forward-or-redirect: with a
forwarder configured and a request that did not itself arrive forwarded, a
successful forward yields no response (pending), and an unknown primary
yields 500 "RPC could not be forwarded to unknown primary."; a request
that already arrived forwarded or a frontend without a forwarder gets a
307 whose Location header is "pubhost:rpcport" from the nodes table when
consensus is present and the primary's node record exists — and no
Location header otherwise. -/
theorem C7_forward_or_redirect (env : Env) (ctx : RpcContext)
    (endpoint : Option EndpointDefinition) (caller_id : CallerId)
    (st : FState) :
    (env.has_forwarder = true → ctx.session.original_caller = none →
      ∀ c, env.consensus = some c → c.primary ≠ NoNode →
        env.forward_succeeds = true →
        (forward_or_redirect_json env ctx endpoint caller_id st).result =
          .pending) ∧
    (env.has_forwarder = true → ctx.session.original_caller = none →
      (env.consensus = none ∨
        ∃ c, env.consensus = some c ∧ c.primary = NoNode) →
      ∃ r, (forward_or_redirect_json env ctx endpoint caller_id st).result =
          .response r ∧ r.status = 500 ∧
        r.body = "RPC could not be forwarded to unknown primary.") ∧
    (env.has_forwarder = false ∨ ctx.session.original_caller.isSome = true →
      ∃ r, (forward_or_redirect_json env ctx endpoint caller_id st).result =
          .response r ∧ r.status = 307 ∧
        (∀ c h p, env.consensus = some c → env.nodes c.primary = some (h, p) →
          r.headers.lookup "Location" = some (h ++ ":" ++ p)) ∧
        (ctx.response.headers.lookup "Location" = none →
          (env.consensus = none ∨
            ∃ c, env.consensus = some c ∧ env.nodes c.primary = none) →
          r.headers.lookup "Location" = none)) := by
  refine ⟨?_, ?_, ?_⟩
  · intro hfw horig c hc hp hsucc
    simp [forward_or_redirect_json, hfw, horig, hc, hp, hsucc]
  · intro hfw horig hnp
    rcases hnp with hn | ⟨c, hc, hp⟩
    · exact ⟨((ctx.set_response_status 500).set_response_body
        "RPC could not be forwarded to unknown primary.").response,
        by simp [forward_or_redirect_json, hfw, horig, hn, fwd_fail_500],
        rfl, rfl⟩
    · exact ⟨((ctx.set_response_status 500).set_response_body
        "RPC could not be forwarded to unknown primary.").response,
        by simp [forward_or_redirect_json, hfw, horig, hc, hp, fwd_fail_500],
        rfl, rfl⟩
  · intro hcase
    have hcond : (env.has_forwarder && ctx.session.original_caller.isNone) =
        false := by
      rcases hcase with h | h
      · simp [h]
      · have hno : ctx.session.original_caller.isNone = false := by
          cases hoc : ctx.session.original_caller
          · rw [hoc] at h; simp at h
          · rfl
        simp [hno]
    cases hcons : env.consensus with
    | none =>
      refine ⟨(ctx.set_response_status 307).response, ?_, ?_, ?_, ?_⟩
      · simp [forward_or_redirect_json, hcond, hcons]
      · rfl
      · intro c h p hc; exact absurd hc (by simp)
      · intro hin _; simpa using hin
    | some c =>
      cases hnode : env.nodes c.primary with
      | none =>
        refine ⟨(ctx.set_response_status 307).response, ?_, ?_, ?_, ?_⟩
        · simp [forward_or_redirect_json, hcond, hcons, hnode]
        · rfl
        · intro c2 h p hc2 hn2
          cases hc2
          rw [hnode] at hn2
          exact absurd hn2 (by simp)
        · intro hin _; simpa using hin
      | some info =>
        refine ⟨((ctx.set_response_status 307).set_response_header "Location"
          (info.1 ++ ":" ++ info.2)).response, ?_, ?_, ?_, ?_⟩
        · simp [forward_or_redirect_json, hcond, hcons, hnode]
        · rfl
        · intro c2 h p hc2 hn2
          cases hc2
          rw [hnode] at hn2
          cases hn2
          exact lookup_set_header _ _ _
        · intro _ habs
          rcases habs with h | ⟨c2, hc2, hn2⟩
          · exact absurd h (by simp)
          · cases hc2
            rw [hnode] at hn2
            exact absurd hn2 (by simp)

def con0 : Consensus :=
  { ctype := ConsensusType.CFT, primary_flag := false, primary := 2,
    active_nodes := [], committed_seqno := 0 }

def envG : Env :=
  { env0 with has_forwarder := true, consensus := some con0 }

def ctxG : RpcContext :=
  { ctx0 with session :=
      { session0 with original_caller := some { caller_id := 3 } } }

/-- Counterexample for C7 as stated: a request that arrived forwarded, with
consensus present but no entry for the primary in the nodes table, gets a
307 response carrying no Location header. -/
theorem C7_counterexample :
    envG.nodes con0.primary = none ∧
    ∃ r, (forward_or_redirect_json envG ctxG (some ep0) 3 st0).result =
        .response r ∧ r.status = 307 ∧ r.headers.lookup "Location" = none :=
  ⟨rfl, _, rfl, rfl, rfl⟩

def envH : Env :=
  { env0 with
    has_forwarder := true, forward_succeeds := true,
    consensus := some con0 }

/-- Witness for C7's amended statement: a successful forward is pending. -/
theorem C7_witness :
    (forward_or_redirect_json envH ctx0 (some ep0) 1 st0).result =
      .pending :=
  (C7_forward_or_redirect envH ctx0 (some ep0) 1 st0).1 rfl rfl con0 rfl
    (by decide) rfl

/-! ### C5: commit versions on the response -/

theorem first_terminal_from_at (env : Env) :
    ∀ d fuel k, d < fuel →
      (∀ j, j < d → attempt_retryable (env.attempts (k + j)) = true) →
      attempt_retryable (env.attempts (k + d)) = false →
      first_terminal_from env k fuel = some (k + d) := by
  intro d
  induction d with
  | zero =>
    intro fuel k hf hall hterm
    cases fuel with
    | zero => omega
    | succ n =>
      have h0 : attempt_retryable (env.attempts k) = false := by
        simpa using hterm
      simp [first_terminal_from, h0]
  | succ d ih =>
    intro fuel k hf hall hterm
    cases fuel with
    | zero => omega
    | succ n =>
      have h0 : attempt_retryable (env.attempts k) = true := by
        simpa using hall 0 (Nat.succ_pos d)
      have hall2 : ∀ j, j < d →
          attempt_retryable (env.attempts (k + 1 + j)) = true := by
        intro j hj
        have : k + 1 + j = k + (j + 1) := by omega
        rw [this]
        exact hall (j + 1) (by omega)
      have hterm2 : attempt_retryable (env.attempts (k + 1 + d)) = false := by
        have : k + 1 + d = k + (d + 1) := by omega
        rw [this]
        exact hterm
      have := ih n (k + 1) (by omega) hall2 hterm2
      simp [first_terminal_from, h0, this]
      omega

/-- C5 (amended): a request that applies writes and whose commit returns
OK produces a response whose seqno is the commit version (or the read
version when the commit version is zero) and whose view is the commit
term — provided consensus is present and the effective version is not
kv::NoVersion; otherwise the source leaves seqno/view unset. -/
theorem C5_commit_versions (env : Env) (ctx : RpcContext) (cid : CallerId)
    (rec : Bool) (sr : Option SignedReq) (st : FState) (k : Nat)
    (c : Consensus) (resp : Resp) (cv rv term : Int)
    (hcons : env.consensus = some c)
    (hk : k < max_attempts)
    (hretry : ∀ j, j < k → attempt_retryable (env.attempts j) = true)
    (hterm : env.attempts k = .executed resp true (.ok cv rv term))
    (hnv : (if cv = 0 then rv else cv) ≠ kvNoVersion) :
    ∃ r, (exec_loop env ctx cid rec sr st 0 max_attempts).result =
        .response r ∧
      r.seqno = some (if cv = 0 then rv else cv) ∧ r.view = some term := by
  have hterm' : attempt_retryable (env.attempts k) = false := by
    rw [hterm]; rfl
  have hft : first_terminal_from env 0 max_attempts = some k := by
    have := first_terminal_from_at env k max_attempts 0 hk
      (by simpa using hretry) (by simpa using hterm')
    simpa using this
  obtain ⟨st2, heq, _⟩ := exec_loop_char env ctx cid rec sr max_attempts 0 st
  rw [hft] at heq
  have heq2 : exec_loop env ctx cid rec sr st 0 max_attempts =
      finish_attempt env ctx st2 (env.attempts k) := heq
  rw [heq2, hterm]
  refine ⟨_, rfl, ?_, ?_⟩ <;>
    simp [finish_attempt, commit_ok_response, hcons, hnv]

def envC5 : Env :=
  { env0 with attempts := fun _ =>
      AttemptOutcome.executed resp200 true (CommitOutcome.ok 5 0 3) }

/-- Counterexample for C5 as stated: with no consensus configured, a
request that applies writes and commits OK with non-zero commit version 5
and commit term 3 yields a response whose seqno and view are left unset
(the source only publishes them when consensus is present and the version
is not kv::NoVersion). -/
theorem C5_counterexample :
    envC5.consensus = none ∧
    envC5.attempts 0 =
      AttemptOutcome.executed resp200 true (CommitOutcome.ok 5 0 3) ∧
    ∃ r, (process_command envC5 ctx0 1 st0).result = .response r ∧
      ¬(r.seqno = some 5 ∧ r.view = some 3) :=
  ⟨rfl, rfl, _, rfl, by decide⟩

def envC5w : Env := { envC5 with consensus := some con0 }

/-- Witness for C5's amended statement at a schedule whose first attempt
commits OK with versions 5/0/3 under a present consensus. -/
theorem C5_witness :
    ∃ r, (exec_loop envC5w ctx0 1 false none st0 0 max_attempts).result =
        .response r ∧
      r.seqno = some ((5 : Int)) ∧ r.view = some 3 := by
  have h := C5_commit_versions envC5w ctx0 1 false none st0 0 con0 resp200
    5 0 3 rfl (by decide) (fun j hj => absurd hj (by omega)) rfl (by decide)
  simpa using h

/-! ### C6: dispatch of Always endpoints under BFT -/

theorem caller_override_fields (env : Env) (ctx : RpcContext)
    (cid : CallerId) :
    (caller_override env ctx cid).2.is_create_request =
      ctx.is_create_request ∧
    (caller_override env ctx cid).2.execute_on_node = ctx.execute_on_node ∧
    (caller_override env ctx cid).2.session.is_forwarding =
      ctx.session.is_forwarding ∧
    (caller_override env ctx cid).2.session.original_caller =
      ctx.session.original_caller ∧
    (caller_override env ctx cid).2.signed_request = ctx.signed_request ∧
    (caller_override env ctx cid).2.method = ctx.method ∧
    (caller_override env ctx cid).2.response = ctx.response := by
  unfold caller_override
  cases hs : ctx.signed_request with
  | none => simp [hs]
  | some sr =>
    simp only []
    split
    · split <;> simp [hs]
    · simp [hs]

def conB : Consensus :=
  { ctype := ConsensusType.BFT, primary_flag := false, primary := 2,
    active_nodes := [], committed_seqno := 0 }

def epAlways : EndpointDefinition :=
  { properties :=
      { require_client_identity := false, require_client_signature := false,
        require_jwt_authentication := false, execute_locally := false,
        forwarding_required := ForwardingRequired.Always } }

def envB : Env :=
  { env0 with
    consensus := some conB, endpoint := some epAlways,
    has_forwarder := true, forward_succeeds := true }

def ctxB : RpcContext := { ctx0 with execute_on_node := true }

/-- Counterexample for C6 as stated: on a non-primary replica under BFT
consensus, a request with execute_on_node = true to an endpoint whose
forwarding_required is Always is NOT forwarded-or-redirected: the inner
dispatch guard is bypassed and the request executes locally (a 200 from
the endpoint, nothing forwarded, is_forwarding never set). -/
theorem C6_counterexample :
    envB.consensus = some conB ∧ conB.ctype = ConsensusType.BFT ∧
    conB.primary_flag = false ∧
    envB.endpoint = some epAlways ∧
    epAlways.properties.forwarding_required = ForwardingRequired.Always ∧
    ctxB.execute_on_node = true ∧
    (process_command envB ctxB 1 st0).st.events.forwarded = [] ∧
    (process_command envB ctxB 1 st0).ctx.session.is_forwarding = false ∧
    ∃ r, (process_command envB ctxB 1 st0).result = .response r ∧
      r.status = 200 :=
  ⟨rfl, rfl, rfl, rfl, rfl, rfl, rfl, rfl, _, rfl, rfl⟩

/-- C6 (amended): on a non-primary replica under BFT consensus, every
request with execute_on_node = false (and not a create-request) to an
endpoint whose forwarding_required is Always that passes the auth gates is
forwarded-or-redirected, irrespective of session.is_forwarding; when
execute_on_node is true the source's outer dispatch guard bypasses the
forwarding switch and the request executes locally. -/
theorem C6_bft_always_forward (env : Env) (ctx : RpcContext)
    (cid : CallerId) (st : FState) (ep : EndpointDefinition) (c : Consensus)
    (pr : Bool × FState)
    (hep : env.endpoint = some ep)
    (hcons : env.consensus = some c)
    (hbft : c.ctype = ConsensusType.BFT)
    (hnp : c.primary_flag = false)
    (hcreate : ctx.is_create_request = false)
    (heon : ctx.execute_on_node = false)
    (halways : ep.properties.forwarding_required = ForwardingRequired.Always)
    (hauth : after_auth env ep (caller_override env ctx cid).2
        (caller_override env ctx cid).1 (bump_calls (bump_lookup st)) =
      .inr pr) :
    process_command env ctx cid st =
      forward_or_redirect_json env
        (set_is_forwarding (caller_override env ctx cid).2) (some ep)
        (caller_override env ctx cid).1 pr.2 := by
  obtain ⟨hcr, heon2, _, _, _, _, _⟩ := caller_override_fields env ctx cid
  have hpf : is_primary_now env (caller_override env ctx cid).2 = false := by
    simp [is_primary_now, hcons, hnp, hcr, hcreate]
  have hdf : dispatch_forwarding env ep (caller_override env ctx cid).2 =
      true := by
    simp [dispatch_forwarding, hpf, hcons, hbft, halways, heon2, heon]
  simp only [process_command, hep]
  simp only [pc_stage2, hauth]
  simp only [pc_dispatch, hdf, if_true]

/-- Witness for C6's amended statement: with execute_on_node = false the
run equals the forward-or-redirect path. -/
theorem C6_witness :
    process_command envB ctx0 7 st0 =
      forward_or_redirect_json envB
        (set_is_forwarding (caller_override envB ctx0 7).2) (some epAlways)
        (caller_override envB ctx0 7).1
        ((false, bump_calls (bump_lookup st0)) : Bool × FState).2 :=
  C6_bft_always_forward envB ctx0 7 st0 epAlways conB
    (false, bump_calls (bump_lookup st0)) rfl rfl rfl rfl rfl rfl rfl rfl

/-! ### Structural lemmas for the auth gates -/

theorem jwt_gate_inl (env : Env) (ep : EndpointDefinition) (ctx : RpcContext)
    (rec : Bool) (st : FState) :
    ∀ r, jwt_gate env ep ctx rec st = .inl r →
      r.st.events = st.events ∧ r.st.verifiers = st.verifiers ∧
      r.st.tx_count = st.tx_count ∧
      r.ctx.session = ctx.session ∧
      ∃ rr, r.result = .response rr ∧
        r.st.metrics = update_metrics rr.status st.metrics := by
  intro r h
  unfold jwt_gate at h
  split at h
  · split at h
    · cases h
      exact ⟨rfl, rfl, rfl, by simp [set_response_unauthorized_jwt],
        _, rfl, rfl⟩
    · split at h
      · cases h
        exact ⟨rfl, rfl, rfl, by simp [set_response_unauthorized_jwt],
          _, rfl, rfl⟩
      · split at h
        · cases h
          exact ⟨rfl, rfl, rfl, by simp [set_response_unauthorized_jwt],
            _, rfl, rfl⟩
        · exact absurd h (by simp)
  · exact absurd h (by simp)

theorem jwt_gate_inr (env : Env) (ep : EndpointDefinition) (ctx : RpcContext)
    (rec : Bool) (st : FState) :
    ∀ pr, jwt_gate env ep ctx rec st = .inr pr → pr = (rec, st) := by
  intro pr h
  unfold jwt_gate at h
  split at h
  · split at h
    · exact absurd h (by simp)
    · split at h
      · exact absurd h (by simp)
      · split at h
        · exact absurd h (by simp)
        · cases h; rfl
  · cases h; rfl

theorem verify_stage_inl (env : Env) (ep : EndpointDefinition)
    (ctx : RpcContext) (cid : CallerId) (sr : SignedReq) (st : FState) :
    ∀ r, verify_stage env ep ctx cid sr st = .inl r →
      r.st.events.verify_calls =
        (ctx.session.caller_cert, cid, sr) :: st.events.verify_calls ∧
      r.st.events.recorded_sigs = st.events.recorded_sigs ∧
      r.st.events.executed = st.events.executed ∧
      r.st.events.forwarded = st.events.forwarded ∧
      r.st.events.endpoint_lookups = st.events.endpoint_lookups ∧
      r.ctx.session = ctx.session ∧
      ∃ rr, r.result = .response rr ∧
        r.st.metrics = update_metrics rr.status st.metrics := by
  intro r h
  unfold verify_stage at h
  by_cases hv : (verify_client_signature env st.verifiers
      ctx.session.caller_cert cid sr).1 = true
  · simp only [hv, if_true] at h
    obtain ⟨he, _, _, hsess, rr, hres, hm⟩ :=
      jwt_gate_inl env ep ctx (is_primary_now env ctx) _ r h
    refine ⟨?_, ?_, ?_, ?_, ?_, hsess, rr, hres, ?_⟩ <;>
      first
        | (rw [he])
        | (rw [hm])
  · simp only [Bool.not_eq_true] at hv
    simp only [hv, Bool.false_eq_true, if_false] at h
    cases h
    exact ⟨rfl, rfl, rfl, rfl, rfl, by simp [set_response_unauthorized],
      _, rfl, rfl⟩

theorem verify_stage_inr (env : Env) (ep : EndpointDefinition)
    (ctx : RpcContext) (cid : CallerId) (sr : SignedReq) (st : FState) :
    ∀ pr, verify_stage env ep ctx cid sr st = .inr pr →
      pr.1 = is_primary_now env ctx ∧
      pr.2.events.verify_calls =
        (ctx.session.caller_cert, cid, sr) :: st.events.verify_calls ∧
      pr.2.events.recorded_sigs = st.events.recorded_sigs ∧
      pr.2.events.executed = st.events.executed ∧
      pr.2.events.forwarded = st.events.forwarded ∧
      pr.2.events.endpoint_lookups = st.events.endpoint_lookups ∧
      pr.2.metrics = st.metrics := by
  intro pr h
  unfold verify_stage at h
  by_cases hv : (verify_client_signature env st.verifiers
      ctx.session.caller_cert cid sr).1 = true
  · simp only [hv, if_true] at h
    have hpr := jwt_gate_inr env ep ctx (is_primary_now env ctx) _ pr h
    rw [hpr]
    exact ⟨rfl, rfl, rfl, rfl, rfl, rfl, rfl⟩
  · simp only [Bool.not_eq_true] at hv
    simp only [hv, Bool.false_eq_true, if_false] at h
    exact absurd h (by simp)

theorem after_auth_inl (env : Env) (ep : EndpointDefinition)
    (ctx : RpcContext) (cid : CallerId) (st : FState) :
    ∀ r, after_auth env ep ctx cid st = .inl r →
      (∀ e ∈ r.st.events.verify_calls,
        e.2.1 = cid ∨ e ∈ st.events.verify_calls) ∧
      r.st.events.recorded_sigs = st.events.recorded_sigs ∧
      r.st.events.executed = st.events.executed ∧
      r.st.events.forwarded = st.events.forwarded ∧
      r.st.events.endpoint_lookups = st.events.endpoint_lookups ∧
      r.ctx.session = ctx.session ∧
      ∃ rr, r.result = .response rr ∧
        r.st.metrics = update_metrics rr.status st.metrics := by
  intro r h
  unfold after_auth at h
  split at h
  · cases h
    exact ⟨fun e he => .inr he, rfl, rfl, rfl, rfl, by simp, _, rfl, rfl⟩
  · split at h
    · cases h
      exact ⟨fun e he => .inr he, rfl, rfl, rfl, rfl,
        by simp [set_response_unauthorized], _, rfl, rfl⟩
    · cases hs : ctx.signed_request with
      | none =>
        rw [hs] at h
        have h2 : jwt_gate env ep ctx false st = .inl r := h
        obtain ⟨he, _, _, hsess, rr, hres, hm⟩ :=
          jwt_gate_inl env ep ctx false st r h2
        refine ⟨fun e hee => .inr (by rw [he] at hee; exact hee),
          by rw [he], by rw [he], by rw [he], by rw [he], hsess,
          rr, hres, hm⟩
      | some sr =>
        rw [hs] at h
        have h2 : (if should_verify_signature env ctx then
            verify_stage env ep ctx cid sr st
          else jwt_gate env ep ctx (is_primary_now env ctx) st) =
            .inl r := h
        by_cases hsv : should_verify_signature env ctx = true
        · simp only [hsv, if_true] at h2
          obtain ⟨hvc, hrec, hex, hfw, hlk, hsess, rr, hres, hm⟩ :=
            verify_stage_inl env ep ctx cid sr st r h2
          refine ⟨?_, hrec, hex, hfw, hlk, hsess, rr, hres, hm⟩
          intro e hee
          rw [hvc] at hee
          rcases List.mem_cons.mp hee with h1 | hmem
          · subst h1; exact .inl rfl
          · exact .inr hmem
        · simp only [Bool.not_eq_true] at hsv
          simp only [hsv, Bool.false_eq_true, if_false] at h2
          obtain ⟨he, _, _, hsess, rr, hres, hm⟩ :=
            jwt_gate_inl env ep ctx (is_primary_now env ctx) st r h2
          refine ⟨fun e hee => .inr (by rw [he] at hee; exact hee),
            by rw [he], by rw [he], by rw [he], by rw [he], hsess,
            rr, hres, hm⟩

theorem after_auth_inr (env : Env) (ep : EndpointDefinition)
    (ctx : RpcContext) (cid : CallerId) (st : FState) :
    ∀ pr, after_auth env ep ctx cid st = .inr pr →
      (∀ e ∈ pr.2.events.verify_calls,
        e.2.1 = cid ∨ e ∈ st.events.verify_calls) ∧
      pr.2.events.recorded_sigs = st.events.recorded_sigs ∧
      pr.2.events.executed = st.events.executed ∧
      pr.2.events.forwarded = st.events.forwarded ∧
      pr.2.events.endpoint_lookups = st.events.endpoint_lookups ∧
      pr.2.metrics = st.metrics := by
  intro pr h
  unfold after_auth at h
  split at h
  · exact absurd h (by simp)
  · split at h
    · exact absurd h (by simp)
    · cases hs : ctx.signed_request with
      | none =>
        rw [hs] at h
        have h2 : jwt_gate env ep ctx false st = .inr pr := h
        have hpr := jwt_gate_inr env ep ctx false st pr h2
        rw [hpr]
        exact ⟨fun e he => .inr he, rfl, rfl, rfl, rfl, rfl⟩
      | some sr =>
        rw [hs] at h
        have h2 : (if should_verify_signature env ctx then
            verify_stage env ep ctx cid sr st
          else jwt_gate env ep ctx (is_primary_now env ctx) st) =
            .inr pr := h
        by_cases hsv : should_verify_signature env ctx = true
        · simp only [hsv, if_true] at h2
          obtain ⟨_, hvc, hrec, hex, hfw, hlk, hm⟩ :=
            verify_stage_inr env ep ctx cid sr st pr h2
          refine ⟨?_, hrec, hex, hfw, hlk, hm⟩
          intro e hee
          rw [hvc] at hee
          rcases List.mem_cons.mp hee with h1 | hmem
          · subst h1; exact .inl rfl
          · exact .inr hmem
        · simp only [Bool.not_eq_true] at hsv
          simp only [hsv, Bool.false_eq_true, if_false] at h2
          have hpr := jwt_gate_inr env ep ctx (is_primary_now env ctx) st
            pr h2
          rw [hpr]
          exact ⟨fun e he => .inr he, rfl, rfl, rfl, rfl, rfl⟩

/-! ### Session and event preservation across the pipeline -/

theorem finish_attempt_session (env : Env) (ctx : RpcContext) (st : FState)
    (o : AttemptOutcome) :
    (finish_attempt env ctx st o).ctx.session = ctx.session := by
  cases o with
  | executed resp aw commit =>
    cases aw <;> cases commit <;>
      simp [finish_attempt, commit_ok_response] <;>
      (repeat' split) <;> simp
  | exCompacted => rfl
  | exRpc s m => simp [finish_attempt]
  | exJson p w => simp [finish_attempt]
  | exKvSerialiser => rfl
  | exOther m => simp [finish_attempt]

theorem exec_loop_session (env : Env) (ctx : RpcContext) (cid : CallerId)
    (rec : Bool) (sr : Option SignedReq) :
    ∀ fuel k st,
      (exec_loop env ctx cid rec sr st k fuel).ctx.session = ctx.session := by
  intro fuel
  induction fuel with
  | zero => intro k st; simp [exec_loop, exhaust_response]
  | succ n ih =>
    intro k st
    by_cases h : attempt_retryable (env.attempts k) = true
    · simp only [exec_loop, h, if_true]
      exact ih (k + 1) _
    · simp only [exec_loop, h, if_false, Bool.false_eq_true]
      exact finish_attempt_session env ctx _ _

theorem forward_session (env : Env) (ctx : RpcContext)
    (endpoint : Option EndpointDefinition) (cid : CallerId) (st : FState) :
    (forward_or_redirect_json env ctx endpoint cid st).ctx.session =
      ctx.session := by
  unfold forward_or_redirect_json fwd_fail_500
  repeat' split
  all_goals simp

theorem forward_events (env : Env) (ctx : RpcContext)
    (endpoint : Option EndpointDefinition) (cid : CallerId) (st : FState) :
    (∀ e ∈ (forward_or_redirect_json env ctx endpoint cid
        st).st.events.forwarded,
      e.1 = cid ∨ e ∈ st.events.forwarded) ∧
    (forward_or_redirect_json env ctx endpoint cid
        st).st.events.verify_calls = st.events.verify_calls ∧
    (forward_or_redirect_json env ctx endpoint cid
        st).st.events.recorded_sigs = st.events.recorded_sigs ∧
    (forward_or_redirect_json env ctx endpoint cid st).st.events.executed =
      st.events.executed ∧
    (forward_or_redirect_json env ctx endpoint cid
        st).st.events.endpoint_lookups = st.events.endpoint_lookups := by
  unfold forward_or_redirect_json fwd_fail_500
  repeat' split
  all_goals refine ⟨fun e he => ?_, rfl, rfl, rfl, rfl⟩
  all_goals
    first
      | exact .inr he
      | (rcases List.mem_cons.mp he with h1 | h2
         · subst h1; exact Or.inl rfl
         · exact Or.inr h2)

theorem attempt_log_executed_eq (env : Env) (cid : CallerId) (rec : Bool)
    (sr : Option SignedReq) (st : FState) :
    (attempt_log env cid rec sr st).events.executed =
      cid :: st.events.executed := by
  unfold attempt_log record_client_signature
  cases rec <;> cases sr <;> simp <;> split <;> rfl

theorem attempt_log_recorded_mem (env : Env) (cid : CallerId) (rec : Bool)
    (sr : Option SignedReq) (st : FState) :
    ∀ e ∈ (attempt_log env cid rec sr st).events.recorded_sigs,
      e.1 = cid ∨ e ∈ st.events.recorded_sigs := by
  intro e he
  unfold attempt_log record_client_signature at he
  cases rec with
  | false => exact .inr he
  | true =>
    cases sr with
    | none => exact .inr he
    | some s =>
      by_cases hn : env.client_signatures_name = ""
      · simp only [hn, if_true] at he
        exact .inr he
      · simp only [hn, if_false] at he
        rcases List.mem_cons.mp he with h1 | h2
        · subst h1; exact Or.inl rfl
        · exact Or.inr h2

theorem exec_loop_events_mem (env : Env) (ctx : RpcContext) (cid : CallerId)
    (rec : Bool) (sr : Option SignedReq) :
    ∀ fuel k st,
      (∀ e ∈ (exec_loop env ctx cid rec sr st k fuel).st.events.executed,
        e = cid ∨ e ∈ st.events.executed) ∧
      (∀ e ∈ (exec_loop env ctx cid rec sr st k
          fuel).st.events.recorded_sigs,
        e.1 = cid ∨ e ∈ st.events.recorded_sigs) := by
  intro fuel
  induction fuel with
  | zero =>
    intro k st
    exact ⟨fun e he => .inr he, fun e he => .inr he⟩
  | succ n ih =>
    intro k st
    by_cases h : attempt_retryable (env.attempts k) = true
    · constructor
      · intro e he
        have he2 : e ∈ (exec_loop env ctx cid rec sr
            (attempt_log env cid rec sr st) (k + 1)
            n).st.events.executed := by
          simpa [exec_loop, h] using he
        rcases (ih (k + 1) (attempt_log env cid rec sr st)).1 e he2 with
          h1 | h2
        · exact .inl h1
        · rw [attempt_log_executed_eq] at h2
          rcases List.mem_cons.mp h2 with h3 | h4
          · exact .inl h3
          · exact .inr h4
      · intro e he
        have he2 : e ∈ (exec_loop env ctx cid rec sr
            (attempt_log env cid rec sr st) (k + 1)
            n).st.events.recorded_sigs := by
          simpa [exec_loop, h] using he
        rcases (ih (k + 1) (attempt_log env cid rec sr st)).2 e he2 with
          h1 | h2
        · exact .inl h1
        · exact attempt_log_recorded_mem env cid rec sr st e h2
    · constructor
      · intro e he
        have he2 : e ∈ (finish_attempt env ctx
            (attempt_log env cid rec sr st)
            (env.attempts k)).st.events.executed := by
          simpa [exec_loop, h] using he
        rw [finish_attempt_events, attempt_log_executed_eq] at he2
        rcases List.mem_cons.mp he2 with h3 | h4
        · exact .inl h3
        · exact .inr h4
      · intro e he
        have he2 : e ∈ (finish_attempt env ctx
            (attempt_log env cid rec sr st)
            (env.attempts k)).st.events.recorded_sigs := by
          simpa [exec_loop, h] using he
        rw [finish_attempt_events] at he2
        exact attempt_log_recorded_mem env cid rec sr st e he2

theorem exec_loop_pres (env : Env) (ctx : RpcContext) (cid : CallerId)
    (rec : Bool) (sr : Option SignedReq) (fuel k : Nat) (st : FState) :
    (exec_loop env ctx cid rec sr st k fuel).st.events.verify_calls =
      st.events.verify_calls ∧
    (exec_loop env ctx cid rec sr st k fuel).st.events.forwarded =
      st.events.forwarded := by
  obtain ⟨st2, heq, hm, hv, ht, hvc, hf, hl⟩ :=
    exec_loop_char env ctx cid rec sr fuel k st
  cases hft : first_terminal_from env k fuel with
  | none =>
    rw [hft] at heq
    have heq2 : exec_loop env ctx cid rec sr st k fuel =
        exhaust_response ctx st2 := heq
    rw [heq2]
    exact ⟨hvc, hf⟩
  | some j =>
    rw [hft] at heq
    have heq2 : exec_loop env ctx cid rec sr st k fuel =
        finish_attempt env ctx st2 (env.attempts j) := heq
    rw [heq2, finish_attempt_events]
    exact ⟨hvc, hf⟩

/-! ### The identity override and its consequences -/

theorem caller_override_fires (env : Env) (ctx : RpcContext)
    (cid0 : CallerId) (sr : SignedReq) (cid : CallerId)
    (hsr : ctx.signed_request = some sr)
    (hcid : env.caller_id_by_digest sr.key_id = cid)
    (hvalid : cid ≠ INVALID_ID) :
    caller_override env ctx cid0 = caller_override env ctx cid ∧
    (caller_override env ctx cid0).1 = cid := by
  constructor <;> simp [caller_override, hsr, hcid, hvalid]

theorem caller_override_cert (env : Env) (ctx : RpcContext)
    (cid0 : CallerId) (sr : SignedReq) (cid : CallerId) (cert : List Nat)
    (hsr : ctx.signed_request = some sr)
    (hcid : env.caller_id_by_digest sr.key_id = cid)
    (hvalid : cid ≠ INVALID_ID)
    (hres : env.resolve_caller cid = some cert) :
    (caller_override env ctx cid0).2.session.caller_cert = cert := by
  simp [caller_override, hsr, hcid, hvalid, hres]

theorem pc_caller_cert (env : Env) (ctx : RpcContext) (cid : CallerId)
    (st : FState) (ep : EndpointDefinition)
    (hep : env.endpoint = some ep) :
    (process_command env ctx cid st).ctx.session.caller_cert =
      (caller_override env ctx cid).2.session.caller_cert := by
  simp only [process_command, hep]
  cases hauth : after_auth env ep (caller_override env ctx cid).2
      (caller_override env ctx cid).1 (bump_calls (bump_lookup st)) with
  | inl r =>
    simp only [pc_stage2, hauth]
    obtain ⟨_, _, _, _, _, hsess, _⟩ := after_auth_inl env ep _ _ _ r hauth
    rw [hsess]
  | inr pr =>
    simp only [pc_stage2, hauth]
    unfold pc_dispatch
    split
    · rw [forward_session]
      rfl
    · rw [exec_loop_session]

theorem pc_events_mem (env : Env) (ctx : RpcContext) (cid : CallerId)
    (st : FState) (ep : EndpointDefinition)
    (hep : env.endpoint = some ep) :
    (∀ e ∈ (process_command env ctx cid st).st.events.verify_calls,
      e.2.1 = (caller_override env ctx cid).1 ∨
        e ∈ st.events.verify_calls) ∧
    (∀ e ∈ (process_command env ctx cid st).st.events.recorded_sigs,
      e.1 = (caller_override env ctx cid).1 ∨
        e ∈ st.events.recorded_sigs) ∧
    (∀ e ∈ (process_command env ctx cid st).st.events.executed,
      e = (caller_override env ctx cid).1 ∨ e ∈ st.events.executed) ∧
    (∀ e ∈ (process_command env ctx cid st).st.events.forwarded,
      e.1 = (caller_override env ctx cid).1 ∨ e ∈ st.events.forwarded) := by
  simp only [process_command, hep]
  cases hauth : after_auth env ep (caller_override env ctx cid).2
      (caller_override env ctx cid).1 (bump_calls (bump_lookup st)) with
  | inl r =>
    simp only [pc_stage2, hauth]
    obtain ⟨hvc, hrec, hex, hfw, _, _, _⟩ :=
      after_auth_inl env ep _ _ _ r hauth
    refine ⟨?_, ?_, ?_, ?_⟩
    · intro e he
      rcases hvc e he with h1 | h2
      · exact .inl h1
      · exact .inr h2
    · intro e he
      rw [hrec] at he
      exact .inr he
    · intro e he
      rw [hex] at he
      exact .inr he
    · intro e he
      rw [hfw] at he
      exact .inr he
  | inr pr =>
    simp only [pc_stage2, hauth]
    obtain ⟨hvc, hrec, hex, hfw, _, hm⟩ :=
      after_auth_inr env ep _ _ _ pr hauth
    unfold pc_dispatch
    split
    · obtain ⟨ffw, fvc, frec, fex, _⟩ := forward_events env
        (set_is_forwarding (caller_override env ctx cid).2) (some ep)
        (caller_override env ctx cid).1 pr.2
      refine ⟨?_, ?_, ?_, ?_⟩
      · intro e he
        rw [fvc] at he
        rcases hvc e he with h1 | h2
        · exact .inl h1
        · exact .inr h2
      · intro e he
        rw [frec, hrec] at he
        exact .inr he
      · intro e he
        rw [fex, hex] at he
        exact .inr he
      · intro e he
        rcases ffw e he with h1 | h2
        · exact .inl h1
        · rw [hfw] at h2
          exact .inr h2
    · have hm2 := exec_loop_events_mem env (caller_override env ctx cid).2
        (caller_override env ctx cid).1 pr.1
        ((caller_override env ctx cid).2.signed_request) max_attempts 0
        { pr.2 with tx_count := pr.2.tx_count + 1 }
      have hp2 := exec_loop_pres env (caller_override env ctx cid).2
        (caller_override env ctx cid).1 pr.1
        ((caller_override env ctx cid).2.signed_request) max_attempts 0
        { pr.2 with tx_count := pr.2.tx_count + 1 }
      refine ⟨?_, ?_, ?_, ?_⟩
      · intro e he
        rw [hp2.1] at he
        have he2 : e ∈ pr.2.events.verify_calls := he
        rcases hvc e he2 with h1 | h2
        · exact .inl h1
        · exact .inr h2
      · intro e he
        rcases hm2.2 e he with h1 | h2
        · exact .inl h1
        · have h3 : e ∈ pr.2.events.recorded_sigs := h2
          rw [hrec] at h3
          exact .inr h3
      · intro e he
        rcases hm2.1 e he with h1 | h2
        · exact .inl h1
        · have h3 : e ∈ pr.2.events.executed := h2
          rw [hex] at h3
          exact .inr h3
      · intro e he
        rw [hp2.2] at he
        have he2 : e ∈ pr.2.events.forwarded := he
        rw [hfw] at he2
        exact .inr he2

/-- C3: for every request carrying a signed request whose key id resolves
to a caller id different from INVALID_ID, the caller id used for all
subsequent authorisation, signature verification, recording and endpoint
execution equals that resolved id (the session-derived id is irrelevant:
the run is identical for any input caller id), the session's caller_cert
is replaced with the certificate resolved from the overriding id, and the
override happens before the identity-requirement check (whose decision no
longer depends on the session-derived id). -/
theorem C3_signed_identity_override (env : Env) (ctx : RpcContext)
    (cid0 : CallerId) (st : FState) (ep : EndpointDefinition)
    (sr : SignedReq) (cid : CallerId)
    (hep : env.endpoint = some ep)
    (hsr : ctx.signed_request = some sr)
    (hcid : env.caller_id_by_digest sr.key_id = cid)
    (hvalid : cid ≠ INVALID_ID)
    (hv : st.events.verify_calls = [])
    (hr : st.events.recorded_sigs = [])
    (hx : st.events.executed = [])
    (hf : st.events.forwarded = []) :
    process_command env ctx cid0 st = process_command env ctx cid st ∧
    (∀ e ∈ (process_command env ctx cid0 st).st.events.verify_calls,
      e.2.1 = cid) ∧
    (∀ e ∈ (process_command env ctx cid0 st).st.events.recorded_sigs,
      e.1 = cid) ∧
    (∀ e ∈ (process_command env ctx cid0 st).st.events.executed,
      e = cid) ∧
    (∀ e ∈ (process_command env ctx cid0 st).st.events.forwarded,
      e.1 = cid) ∧
    (∀ cert, env.resolve_caller cid = some cert →
      (process_command env ctx cid0 st).ctx.session.caller_cert = cert) ∧
    identity_gate_fails env ep (caller_override env ctx cid0).2
        (caller_override env ctx cid0).1 =
      (ep.properties.require_client_identity && env.has_certs &&
        (ctx.session.original_caller.isSome &&
          !env.lookup_forwarded_caller_ok)) := by
  obtain ⟨hco, hc1⟩ := caller_override_fires env ctx cid0 sr cid hsr hcid
    hvalid
  obtain ⟨hvcm, hrecm, hexm, hfwm⟩ := pc_events_mem env ctx cid0 st ep hep
  refine ⟨?_, ?_, ?_, ?_, ?_, ?_, ?_⟩
  · simp only [process_command]
    rw [hco]
  · intro e he
    rcases hvcm e he with h1 | h2
    · rw [hc1] at h1
      exact h1
    · rw [hv] at h2
      exact absurd h2 (List.not_mem_nil e)
  · intro e he
    rcases hrecm e he with h1 | h2
    · rw [hc1] at h1
      exact h1
    · rw [hr] at h2
      exact absurd h2 (List.not_mem_nil e)
  · intro e he
    rcases hexm e he with h1 | h2
    · rw [hc1] at h1
      exact h1
    · rw [hx] at h2
      exact absurd h2 (List.not_mem_nil e)
  · intro e he
    rcases hfwm e he with h1 | h2
    · rw [hc1] at h1
      exact h1
    · rw [hf] at h2
      exact absurd h2 (List.not_mem_nil e)
  · intro cert hres
    rw [pc_caller_cert env ctx cid0 st ep hep]
    exact caller_override_cert env ctx cid0 sr cid cert hsr hcid hvalid hres
  · obtain ⟨_, _, _, horig, _, _, _⟩ := caller_override_fields env ctx cid0
    have hbe : (cid == INVALID_ID) = false := by
      simp [hvalid]
    simp [identity_gate_fails, hc1, horig, hbe]

def envD : Env :=
  { env0 with
    caller_id_by_digest := fun _ => 5,
    resolve_caller := fun _ => some [7, 7] }

def ctxD : RpcContext := { ctx0 with signed_request := some srW }

/-- Witness for C3 at a signed request whose key id resolves to caller
id 5 while the session-derived id is 1. -/
theorem C3_witness :
    (process_command envD ctxD 1 st0 = process_command envD ctxD 5 st0) ∧
    (∀ e ∈ (process_command envD ctxD 1 st0).st.events.executed, e = 5) ∧
    (process_command envD ctxD 1 st0).ctx.session.caller_cert = [7, 7] :=
  ⟨(C3_signed_identity_override envD ctxD 1 st0 ep0 srW 5 rfl rfl rfl
      (by decide) rfl rfl rfl rfl).1,
   (C3_signed_identity_override envD ctxD 1 st0 ep0 srW 5 rfl rfl rfl
      (by decide) rfl rfl rfl rfl).2.2.2.1,
   (C3_signed_identity_override envD ctxD 1 st0 ep0 srW 5 rfl rfl rfl
      (by decide) rfl rfl rfl rfl).2.2.2.2.2.1 [7, 7] rfl⟩

/-! ### C4: when signature verification is invoked -/

theorem should_verify_iff (env : Env) (ctx : RpcContext) :
    should_verify_signature env ctx = true ↔
      (ctx.is_create_request = false ∧
        ¬(is_cft_consensus env = true ∧
          ctx.session.original_caller.isSome = true)) := by
  unfold should_verify_signature
  cases hc : ctx.is_create_request <;>
    cases ho : ctx.session.original_caller <;>
    cases hk : is_cft_consensus env <;>
    simp_all

theorem after_auth_verify_inl (env : Env) (ep : EndpointDefinition)
    (ctx : RpcContext) (cid : CallerId) (st : FState)
    (hid : identity_gate_fails env ep ctx cid = false) :
    ∀ r, after_auth env ep ctx cid st = .inl r →
      r.st.events.verify_calls =
        (match ctx.signed_request with
         | some sr =>
           if should_verify_signature env ctx = true then
             (ctx.session.caller_cert, cid, sr) :: st.events.verify_calls
           else st.events.verify_calls
         | none => st.events.verify_calls) := by
  intro r h
  unfold after_auth at h
  split at h
  · rename_i hcond
    rw [hid] at hcond
    exact absurd hcond (by simp)
  · split at h
    · rename_i hcond
      cases h
      have hnone : ctx.signed_request = none := by
        simp only [Bool.and_eq_true] at hcond
        exact Option.isNone_iff_eq_none.mp hcond.2
      rw [hnone]
    · cases hs : ctx.signed_request with
      | none =>
        rw [hs] at h
        have h2 : jwt_gate env ep ctx false st = .inl r := h
        obtain ⟨he, _⟩ := jwt_gate_inl env ep ctx false st r h2
        rw [he]
      | some sr =>
        rw [hs] at h
        have h2 : (if should_verify_signature env ctx then
            verify_stage env ep ctx cid sr st
          else jwt_gate env ep ctx (is_primary_now env ctx) st) =
            .inl r := h
        by_cases hsv : should_verify_signature env ctx = true
        · simp only [hsv, if_true] at h2
          obtain ⟨hvc, _⟩ := verify_stage_inl env ep ctx cid sr st r h2
          rw [hvc]
          simp [hsv]
        · simp only [Bool.not_eq_true] at hsv
          simp only [hsv, Bool.false_eq_true, if_false] at h2
          obtain ⟨he, _⟩ :=
            jwt_gate_inl env ep ctx (is_primary_now env ctx) st r h2
          rw [he]
          simp [hsv]

theorem after_auth_verify_inr (env : Env) (ep : EndpointDefinition)
    (ctx : RpcContext) (cid : CallerId) (st : FState)
    (hid : identity_gate_fails env ep ctx cid = false) :
    ∀ pr, after_auth env ep ctx cid st = .inr pr →
      pr.2.events.verify_calls =
        (match ctx.signed_request with
         | some sr =>
           if should_verify_signature env ctx = true then
             (ctx.session.caller_cert, cid, sr) :: st.events.verify_calls
           else st.events.verify_calls
         | none => st.events.verify_calls) := by
  intro pr h
  unfold after_auth at h
  split at h
  · exact absurd h (by simp)
  · split at h
    · exact absurd h (by simp)
    · cases hs : ctx.signed_request with
      | none =>
        rw [hs] at h
        have h2 : jwt_gate env ep ctx false st = .inr pr := h
        have hpr := jwt_gate_inr env ep ctx false st pr h2
        rw [hpr]
      | some sr =>
        rw [hs] at h
        have h2 : (if should_verify_signature env ctx then
            verify_stage env ep ctx cid sr st
          else jwt_gate env ep ctx (is_primary_now env ctx) st) =
            .inr pr := h
        by_cases hsv : should_verify_signature env ctx = true
        · simp only [hsv, if_true] at h2
          obtain ⟨_, hvc, _⟩ := verify_stage_inr env ep ctx cid sr st pr h2
          rw [hvc]
          simp [hsv]
        · simp only [Bool.not_eq_true] at hsv
          simp only [hsv, Bool.false_eq_true, if_false] at h2
          have hpr := jwt_gate_inr env ep ctx (is_primary_now env ctx) st
            pr h2
          rw [hpr]
          simp [hsv]

theorem pc_verify_calls (env : Env) (ctx : RpcContext) (cid : CallerId)
    (st : FState) (ep : EndpointDefinition)
    (hep : env.endpoint = some ep)
    (hid : identity_gate_fails env ep (caller_override env ctx cid).2
        (caller_override env ctx cid).1 = false) :
    (process_command env ctx cid st).st.events.verify_calls =
      (match ctx.signed_request with
       | some sr =>
         if should_verify_signature env ctx = true then
           ((caller_override env ctx cid).2.session.caller_cert,
             (caller_override env ctx cid).1, sr) ::
             st.events.verify_calls
         else st.events.verify_calls
       | none => st.events.verify_calls) := by
  have hfields := caller_override_fields env ctx cid
  have hsig : (caller_override env ctx cid).2.signed_request =
      ctx.signed_request := hfields.2.2.2.2.1
  have hsv : should_verify_signature env (caller_override env ctx cid).2 =
      should_verify_signature env ctx := by
    unfold should_verify_signature
    rw [hfields.1, hfields.2.2.2.1]
  simp only [process_command, hep]
  cases hauth : after_auth env ep (caller_override env ctx cid).2
      (caller_override env ctx cid).1 (bump_calls (bump_lookup st)) with
  | inl r =>
    simp only [pc_stage2, hauth]
    have heq := after_auth_verify_inl env ep (caller_override env ctx cid).2
      (caller_override env ctx cid).1 (bump_calls (bump_lookup st)) hid r
      hauth
    rw [heq, hsig, hsv]
    rfl
  | inr pr =>
    simp only [pc_stage2, hauth]
    have heq := after_auth_verify_inr env ep (caller_override env ctx cid).2
      (caller_override env ctx cid).1 (bump_calls (bump_lookup st)) hid pr
      hauth
    unfold pc_dispatch
    split
    · rw [(forward_events env
        (set_is_forwarding (caller_override env ctx cid).2) (some ep)
        (caller_override env ctx cid).1 pr.2).2.1]
      rw [heq, hsig, hsv]
      rfl
    · rw [(exec_loop_pres env (caller_override env ctx cid).2
        (caller_override env ctx cid).1 pr.1
        ((caller_override env ctx cid).2.signed_request) max_attempts 0
        { pr.2 with tx_count := pr.2.tx_count + 1 }).1]
      have h2 : ({ pr.2 with tx_count := pr.2.tx_count + 1 } :
          FState).events.verify_calls = pr.2.events.verify_calls := rfl
      rw [h2, heq, hsig, hsv]
      rfl

theorem after_auth_runs_verify (env : Env) (ep : EndpointDefinition)
    (ctx : RpcContext) (cid : CallerId) (st : FState) (sr : SignedReq)
    (hid : identity_gate_fails env ep ctx cid = false)
    (hs : ctx.signed_request = some sr)
    (hsv : should_verify_signature env ctx = true) :
    after_auth env ep ctx cid st = verify_stage env ep ctx cid sr st := by
  unfold after_auth
  rw [hs]
  simp [hid, hsv]

/-- C4: verify_client_signature is invoked if and only if a signed request
is present, the request is not a create-request, and the request is not a
CFT-forwarded request (not both consensus type CFT and
session.original_caller present); when invoked and it fails, the response
is HTTP 401 with a WWW-Authenticate header of the form
Signature realm="Signed request access", headers="...". Scoped to runs
that find an endpoint and pass the identity-requirement gate (earlier
gates return before verification is reached). -/
theorem C4_signature_verification (env : Env) (ctx : RpcContext)
    (cid : CallerId) (st : FState) (ep : EndpointDefinition)
    (hep : env.endpoint = some ep)
    (hid : identity_gate_fails env ep (caller_override env ctx cid).2
        (caller_override env ctx cid).1 = false)
    (hv : st.events.verify_calls = []) :
    ((process_command env ctx cid st).st.events.verify_calls ≠ [] ↔
      (ctx.signed_request.isSome = true ∧ ctx.is_create_request = false ∧
        ¬(is_cft_consensus env = true ∧
          ctx.session.original_caller.isSome = true))) ∧
    (∀ sr, ctx.signed_request = some sr →
      should_verify_signature env ctx = true →
      (verify_client_signature env st.verifiers
          (caller_override env ctx cid).2.session.caller_cert
          (caller_override env ctx cid).1 sr).1 = false →
      ∃ r, (process_command env ctx cid st).result = .response r ∧
        r.status = 401 ∧
        r.headers.lookup "WWW-Authenticate" =
          some (signature_auth_value env)) := by
  constructor
  · rw [pc_verify_calls env ctx cid st ep hep hid]
    cases hs : ctx.signed_request with
    | none =>
      simp only [hv]
      constructor
      · intro hne
        exact absurd rfl hne
      · rintro ⟨hsome, _⟩
        simp at hsome
    | some sr =>
      by_cases hsv : should_verify_signature env ctx = true
      · simp only [hsv, if_true]
        constructor
        · intro _
          obtain ⟨h1, h2⟩ := (should_verify_iff env ctx).mp hsv
          exact ⟨rfl, h1, h2⟩
        · intro _
          simp
      · simp only [Bool.not_eq_true] at hsv
        simp only [hsv, Bool.false_eq_true, if_false, hv]
        constructor
        · intro hne
          exact absurd rfl hne
        · rintro ⟨_, h1, h2⟩
          have : should_verify_signature env ctx = true :=
            (should_verify_iff env ctx).mpr ⟨h1, h2⟩
          rw [hsv] at this
          exact absurd this (by simp)
  · intro sr hs hsv hvf
    have hfields := caller_override_fields env ctx cid
    have hs2 : (caller_override env ctx cid).2.signed_request = some sr := by
      rw [hfields.2.2.2.2.1, hs]
    have hsv2 : should_verify_signature env
        (caller_override env ctx cid).2 = true := by
      unfold should_verify_signature
      rw [hfields.1, hfields.2.2.2.1]
      exact hsv
    have hauth := after_auth_runs_verify env ep
      (caller_override env ctx cid).2 (caller_override env ctx cid).1
      (bump_calls (bump_lookup st)) sr hid hs2 hsv2
    have hvf2 : (verify_client_signature env
        (bump_calls (bump_lookup st)).verifiers
        (caller_override env ctx cid).2.session.caller_cert
        (caller_override env ctx cid).1 sr).1 = false := hvf
    simp only [process_command, hep, pc_stage2, hauth]
    unfold verify_stage
    simp only [hvf2, Bool.false_eq_true, if_false]
    exact ⟨_, rfl, rfl, lookup_set_header _ _ _⟩

def envE4 : Env := { env0 with vfy := fun _ _ _ _ => false }

def ctxE4 : RpcContext := { ctx0 with signed_request := some srW }

/-- Witness for C4: a signed request whose verification fails gets a 401
with the Signature challenge. -/
theorem C4_witness :
    ∃ r, (process_command envE4 ctxE4 1 st0).result = .response r ∧
      r.status = 401 ∧
      r.headers.lookup "WWW-Authenticate" =
        some (signature_auth_value envE4) :=
  (C4_signature_verification envE4 ctxE4 1 st0 ep0 rfl rfl rfl).2 srW rfl
    rfl rfl

/-! ### C8: metric accounting -/

theorem forward_calls (env : Env) (ctx : RpcContext)
    (endpoint : Option EndpointDefinition) (cid : CallerId) (st : FState) :
    (forward_or_redirect_json env ctx endpoint cid st).st.metrics.calls =
      st.metrics.calls := by
  unfold forward_or_redirect_json fwd_fail_500
  repeat' split
  all_goals simp [update_metrics_calls]

theorem forward_metrics (env : Env) (ctx : RpcContext)
    (endpoint : Option EndpointDefinition) (cid : CallerId) (st : FState) :
    ((forward_or_redirect_json env ctx endpoint cid st).result = .pending →
      (forward_or_redirect_json env ctx endpoint cid st).st.metrics =
        st.metrics) ∧
    (∀ r, (forward_or_redirect_json env ctx endpoint cid st).result =
        .response r →
      (forward_or_redirect_json env ctx endpoint cid st).st.metrics =
        update_metrics r.status st.metrics) := by
  unfold forward_or_redirect_json fwd_fail_500
  repeat' split
  all_goals
    refine ⟨fun h => ?_, fun r hr => ?_⟩
  all_goals
    first
      | rfl
      | (cases h)
      | (cases hr <;> simp [update_metrics])

theorem finish_attempt_calls (env : Env) (ctx : RpcContext) (st : FState)
    (o : AttemptOutcome) :
    (finish_attempt env ctx st o).st.metrics.calls = st.metrics.calls := by
  cases o with
  | executed resp aw commit =>
    cases aw <;> cases commit <;>
      simp [finish_attempt, commit_ok_response, update_metrics_calls]
  | exCompacted => rfl
  | exRpc s m => simp [finish_attempt, update_metrics_calls]
  | exJson p w => simp [finish_attempt, update_metrics_calls]
  | exKvSerialiser => rfl
  | exOther m => simp [finish_attempt, update_metrics_calls]

theorem finish_attempt_metrics (env : Env) (ctx : RpcContext) (st : FState)
    (o : AttemptOutcome) :
    ((finish_attempt env ctx st o).result = .pending →
      (finish_attempt env ctx st o).st.metrics = st.metrics) ∧
    ((finish_attempt env ctx st o).result = .abort →
      (finish_attempt env ctx st o).st.metrics = st.metrics) ∧
    (∀ r, (finish_attempt env ctx st o).result = .response r →
      (finish_attempt env ctx st o).st.metrics =
        update_metrics r.status st.metrics) := by
  cases o with
  | executed resp aw commit =>
    cases aw <;> cases commit <;>
      (refine ⟨fun h => ?_, fun h => ?_, fun r hr => ?_⟩ <;>
        first
          | rfl
          | (cases h)
          | (cases hr <;> simp [finish_attempt, commit_ok_response]))
  | exCompacted =>
    refine ⟨fun h => rfl, fun h => ?_, fun r hr => ?_⟩
    · simp [finish_attempt] at h
    · simp [finish_attempt] at hr
  | exRpc s m =>
    refine ⟨fun h => ?_, fun h => ?_, fun r hr => ?_⟩
    · simp [finish_attempt] at h
    · simp [finish_attempt] at h
    · simp only [finish_attempt] at hr
      cases hr
      simp [finish_attempt]
  | exJson p w =>
    refine ⟨fun h => ?_, fun h => ?_, fun r hr => ?_⟩
    · simp [finish_attempt] at h
    · simp [finish_attempt] at h
    · simp only [finish_attempt] at hr
      cases hr
      simp [finish_attempt]
  | exKvSerialiser =>
    refine ⟨fun h => ?_, fun h => rfl, fun r hr => ?_⟩
    · simp [finish_attempt] at h
    · simp [finish_attempt] at hr
  | exOther m =>
    refine ⟨fun h => ?_, fun h => ?_, fun r hr => ?_⟩
    · simp [finish_attempt] at h
    · simp [finish_attempt] at h
    · simp only [finish_attempt] at hr
      cases hr
      simp [finish_attempt]

theorem exec_loop_metrics (env : Env) (ctx : RpcContext) (cid : CallerId)
    (rec : Bool) (sr : Option SignedReq) (st : FState) :
    ((exec_loop env ctx cid rec sr st 0 max_attempts).st.metrics.calls =
      st.metrics.calls) ∧
    ((first_terminal env).isNone = true →
      ∃ r, (exec_loop env ctx cid rec sr st 0 max_attempts).result =
          .response r ∧ r.status = 409 ∧
        (exec_loop env ctx cid rec sr st 0
            max_attempts).st.metrics.errors = st.metrics.errors ∧
        (exec_loop env ctx cid rec sr st 0
            max_attempts).st.metrics.failures = st.metrics.failures) ∧
    ((exec_loop env ctx cid rec sr st 0 max_attempts).result = .pending →
      (exec_loop env ctx cid rec sr st 0 max_attempts).st.metrics.errors =
        st.metrics.errors ∧
      (exec_loop env ctx cid rec sr st 0
          max_attempts).st.metrics.failures = st.metrics.failures) ∧
    ((first_terminal env).isNone = false →
      ∀ r, (exec_loop env ctx cid rec sr st 0 max_attempts).result =
          .response r →
        (exec_loop env ctx cid rec sr st 0 max_attempts).st.metrics.errors =
          st.metrics.errors + (if r.status / 100 = 4 then 1 else 0) ∧
        (exec_loop env ctx cid rec sr st 0
            max_attempts).st.metrics.failures =
          st.metrics.failures + (if r.status / 100 = 5 then 1 else 0)) := by
  obtain ⟨st2, heq, hm, _⟩ :=
    exec_loop_char env ctx cid rec sr max_attempts 0 st
  cases hft : first_terminal_from env 0 max_attempts with
  | none =>
    rw [hft] at heq
    have heq2 : exec_loop env ctx cid rec sr st 0 max_attempts =
        exhaust_response ctx st2 := heq
    rw [heq2]
    refine ⟨by rw [show (exhaust_response ctx st2).st = st2 from rfl, hm],
      fun _ => ⟨_, rfl, rfl, ?_, ?_⟩, fun h => ?_, fun hcontra => ?_⟩
    · rw [show (exhaust_response ctx st2).st = st2 from rfl, hm]
    · rw [show (exhaust_response ctx st2).st = st2 from rfl, hm]
    · exact absurd h (by simp [exhaust_response])
    · rw [show first_terminal env = first_terminal_from env 0 max_attempts
        from rfl, hft] at hcontra
      exact absurd hcontra (by simp)
  | some j =>
    rw [hft] at heq
    have heq2 : exec_loop env ctx cid rec sr st 0 max_attempts =
        finish_attempt env ctx st2 (env.attempts j) := heq
    rw [heq2]
    obtain ⟨hp, ha, hr⟩ := finish_attempt_metrics env ctx st2 (env.attempts j)
    refine ⟨by rw [finish_attempt_calls, hm], fun hcontra => ?_,
      fun h => ?_, fun _ => fun r hres => ?_⟩
    · rw [show first_terminal env = first_terminal_from env 0 max_attempts
        from rfl, hft] at hcontra
      exact absurd hcontra (by simp)
    · rw [hp h, hm]
      exact ⟨rfl, rfl⟩
    · rw [hr r hres, update_metrics_errors, update_metrics_failures, hm]
      exact ⟨rfl, rfl⟩

/-- Counterexample for C8 as stated: a request whose 30 attempts all end
in a KV CONFLICT exits with the 4xx status 409 but the per-endpoint errors
counter is NOT incremented (the retry-exhaustion exit returns without
calling update_metrics), even though the endpoint lookup succeeded and
calls was incremented. -/
theorem C8_counterexample :
    ∃ r, (process_command
        { env0 with attempts := fun _ =>
            AttemptOutcome.executed resp200 true CommitOutcome.conflict }
        ctx0 1 st0).result = .response r ∧
      r.status = 409 ∧ r.status / 100 = 4 ∧
      (process_command
        { env0 with attempts := fun _ =>
            AttemptOutcome.executed resp200 true CommitOutcome.conflict }
        ctx0 1 st0).st.metrics.errors = 0 ∧
      (process_command
        { env0 with attempts := fun _ =>
            AttemptOutcome.executed resp200 true CommitOutcome.conflict }
        ctx0 1 st0).st.metrics.calls = 1 :=
  ⟨_, rfl, rfl, rfl, rfl, rfl⟩

/-- C8 (amended): the per-endpoint calls counter is incremented exactly
once iff the endpoint lookup succeeded; for every response returned by
process_command the endpoint's errors (resp. failures) counter is
incremented iff the final status class is 4xx (resp. 5xx) — EXCEPT the
retry-exhaustion exit, which returns its 409 without updating either
counter; pending (forwarded/distributed) results update neither. -/
theorem C8_metrics (env : Env) (ctx : RpcContext) (cid : CallerId)
    (st : FState) :
    ((process_command env ctx cid st).st.metrics.calls =
      st.metrics.calls + (if env.endpoint.isSome then 1 else 0)) ∧
    (env.endpoint = none →
      (process_command env ctx cid st).st.metrics.errors =
        st.metrics.errors ∧
      (process_command env ctx cid st).st.metrics.failures =
        st.metrics.failures) ∧
    ((process_command env ctx cid st).result = .pending →
      (process_command env ctx cid st).st.metrics.errors =
        st.metrics.errors ∧
      (process_command env ctx cid st).st.metrics.failures =
        st.metrics.failures) ∧
    (∀ r, (process_command env ctx cid st).result = .response r →
      env.endpoint.isSome = true →
      if reaches_executor env ctx cid st &&
          (first_terminal env).isNone then
        r.status = 409 ∧
        (process_command env ctx cid st).st.metrics.errors =
          st.metrics.errors ∧
        (process_command env ctx cid st).st.metrics.failures =
          st.metrics.failures
      else
        (process_command env ctx cid st).st.metrics.errors =
          st.metrics.errors + (if r.status / 100 = 4 then 1 else 0) ∧
        (process_command env ctx cid st).st.metrics.failures =
          st.metrics.failures +
            (if r.status / 100 = 5 then 1 else 0)) := by
  cases hend : env.endpoint with
  | none =>
    simp only [process_command, hend]
    unfold lookup_fail_response
    split
    · refine ⟨by simp [bump_lookup], fun _ => ⟨rfl, rfl⟩, fun h => ?_,
        fun r hr h2 => ?_⟩
      · exact absurd h (by simp)
      · simp at h2
    · refine ⟨by simp [bump_lookup], fun _ => ⟨rfl, rfl⟩, fun h => ?_,
        fun r hr h2 => ?_⟩
      · exact absurd h (by simp)
      · simp at h2
  | some ep =>
    simp only [process_command, hend]
    have hreach : reaches_executor env ctx cid st =
        (match after_auth env ep (caller_override env ctx cid).2
            (caller_override env ctx cid).1
            (bump_calls (bump_lookup st)) with
         | .inl _ => false
         | .inr _ => !dispatch_forwarding env ep
             (caller_override env ctx cid).2) := by
      simp only [reaches_executor, hend]
    cases hauth : after_auth env ep (caller_override env ctx cid).2
        (caller_override env ctx cid).1 (bump_calls (bump_lookup st)) with
    | inl r0 =>
      simp only [pc_stage2, hauth]
      obtain ⟨_, _, _, _, _, _, rr, hres, hm⟩ :=
        after_auth_inl env ep _ _ _ r0 hauth
      have hrf : reaches_executor env ctx cid st = false := by
        rw [hreach, hauth]
      refine ⟨?_, fun hcontra => ?_, fun h => ?_, fun r hr _ => ?_⟩
      · rw [hm, update_metrics_calls]
        simp [bump_calls, bump_lookup]
      · exact absurd hcontra (by simp)
      · rw [hres] at h
        exact absurd h (by simp)
      · rw [hrf]
        simp only [Bool.false_and, Bool.false_eq_true, if_false]
        rw [hres] at hr
        cases hr
        rw [hm, update_metrics_errors, update_metrics_failures]
        exact ⟨rfl, rfl⟩
    | inr pr =>
      simp only [pc_stage2, hauth]
      obtain ⟨_, _, _, _, _, hm⟩ := after_auth_inr env ep _ _ _ pr hauth
      unfold pc_dispatch
      split
      · rename_i hdf
        have hrf : reaches_executor env ctx cid st = false := by
          rw [hreach, hauth, hdf]
          rfl
        obtain ⟨hfp, hfr⟩ := forward_metrics env
          (set_is_forwarding (caller_override env ctx cid).2) (some ep)
          (caller_override env ctx cid).1 pr.2
        refine ⟨?_, fun hcontra => ?_, fun h => ?_, fun r hr _ => ?_⟩
        · rw [forward_calls, hm]
          simp [bump_calls, bump_lookup]
        · exact absurd hcontra (by simp)
        · rw [hfp h, hm]
          exact ⟨rfl, rfl⟩
        · rw [hrf]
          simp only [Bool.false_and, Bool.false_eq_true, if_false]
          rw [hfr r hr, update_metrics_errors, update_metrics_failures, hm]
          exact ⟨rfl, rfl⟩
      · rename_i hdf
        have hdf2 : dispatch_forwarding env ep
            (caller_override env ctx cid).2 = false := by
          cases hb : dispatch_forwarding env ep
              (caller_override env ctx cid).2
          · rfl
          · exact absurd hb hdf
        have hrt : reaches_executor env ctx cid st = true := by
          rw [hreach, hauth, hdf2]
          rfl
        obtain ⟨hcalls, hnone, hpend, hsome⟩ := exec_loop_metrics env
          (caller_override env ctx cid).2 (caller_override env ctx cid).1
          pr.1 ((caller_override env ctx cid).2.signed_request)
          { pr.2 with tx_count := pr.2.tx_count + 1 }
        have hm2 : ({ pr.2 with tx_count := pr.2.tx_count + 1 } :
            FState).metrics = pr.2.metrics := rfl
        refine ⟨?_, fun hcontra => ?_, fun h => ?_, fun r hr _ => ?_⟩
        · rw [hcalls, hm2, hm]
          simp [bump_calls, bump_lookup]
        · exact absurd hcontra (by simp)
        · obtain ⟨he, hf⟩ := hpend h
          rw [he, hf, hm2, hm]
          exact ⟨rfl, rfl⟩
        · rw [hrt]
          cases hia : (first_terminal env).isNone with
          | true =>
            simp only [Bool.true_and, if_true]
            obtain ⟨r2, hr2, hs2, he2, hf2⟩ := hnone hia
            rw [hr2] at hr
            cases hr
            refine ⟨hs2, ?_, ?_⟩
            · rw [he2, hm2, hm]
              rfl
            · rw [hf2, hm2, hm]
              rfl
          | false =>
            simp only [Bool.true_and, hia, Bool.false_eq_true, if_false]
            obtain ⟨he2, hf2⟩ := hsome hia r hr
            rw [he2, hf2, hm2, hm]
            exact ⟨rfl, rfl⟩

/-- Witness for C8's amended statement: a run whose first attempt yields a
200 with no applied writes increments calls by 1 and neither errors nor
failures. -/
theorem C8_witness :
    (process_command env0 ctx0 1 st0).st.metrics.calls =
      st0.metrics.calls + (if env0.endpoint.isSome then 1 else 0) ∧
    (process_command env0 ctx0 1 st0).st.metrics.errors =
      st0.metrics.errors +
        (if ((process_command env0 ctx0 1 st0).ctx.response).status / 100 =
            4 then 1 else 0) ∧
    (process_command env0 ctx0 1 st0).st.metrics.failures =
      st0.metrics.failures +
        (if ((process_command env0 ctx0 1 st0).ctx.response).status / 100 =
            5 then 1 else 0) := by
  have h := C8_metrics env0 ctx0 1 st0
  have hr := h.2.2.2 ((process_command env0 ctx0 1 st0).ctx.response) rfl rfl
  rw [show (reaches_executor env0 ctx0 1 st0 &&
      (first_terminal env0).isNone) = false from rfl] at hr
  simp only [Bool.false_eq_true, if_false] at hr
  exact ⟨h.1, hr.1, hr.2⟩

end CCF
